import Mathlib

/-!
# minui-btntest: button-combination evaluation and argument parsing

A shallow embedding of `src/minui-btntest.c` and theorems about it.

Conventions of the embedding:

* a C string is the list of its characters before the terminating NUL (`CStr`);
  `strcmp (a, b) == 0` is equality of the two lists;
* `argv` is a list of C strings and `argc` is its length;
* a pointer that may be `NULL` is an `Option`;
* the `char *buttons[30]` member is a list of `Option CStr` (30 slots);
* `int` values (exit codes, `quitting`) are `Int`; no arithmetic is done on them;
* `PAD_poll` followed by the four `PAD_*` queries is a `Snapshot` handed to `handle_input`;
* a write outside an object (a store past `buttons[29]`, a `sprintf` past the end of
  `buff[256]`) is undefined behaviour in C: `parse_args` reports what it stores and
  formats, `parse_overrun` tells whether a write left its object, and `main` then has no
  status.
-/

namespace Btntest

/-- A C string: the characters before the terminating NUL. -/
abbrev CStr := List Char

/-! ## Exit codes (`enum list_result_t`) -/

def ExitCodeSuccess : Int := 0
def ExitCodeError : Int := 1
def ExitCodeCancelButton : Int := 2
def ExitCodeMenuButton : Int := 3
def ExitCodeActionButton : Int := 4
def ExitCodeInactionButton : Int := 5
def ExitCodeStartButton : Int := 6
def ExitCodeParseError : Int := 10
def ExitCodeSerializeError : Int := 11
def ExitCodeTimeout : Int := 124
def ExitCodeKeyboardInterrupt : Int := 130
def ExitCodeSigterm : Int := 143

/-! ## Data model -/

inductive ButtonMode where
  | MODE_CAPTURE
  | MODE_WAIT
  deriving DecidableEq, Repr

inductive ButtonState where
  | STATE_JUST_PRESSED
  | STATE_IS_PRESSED
  | STATE_JUST_RELEASED
  | STATE_JUST_REPEATED
  deriving DecidableEq, Repr

inductive ButtonCombination where
  | BTN_COMBO_ALL
  | BTN_COMBO_ANY
  | BTN_COMBO_EITHER
  deriving DecidableEq, Repr

open ButtonMode ButtonState ButtonCombination

/-- The `struct Button` of the source: what is being tracked. `buttons` is the
`char *buttons[30]` array, a `none` slot being a `NULL` pointer. -/
structure Button where
  combination : ButtonCombination
  state : ButtonState
  mode : ButtonMode
  buttons : List (Option CStr)
  deriving DecidableEq, Repr

/-- The `struct AppState` of the source. -/
structure AppState where
  quitting : Int
  exit_code : Int
  button : Button
  deriving DecidableEq, Repr

/-- Modelled from the spec: the button constants `BTN_*` of `api.h`, which is not part of
the sources at hand. Only their identity matters here; `BTN_NONE` is the "none" sentinel.
`BTN_PLUS` is declared for completeness: `button_to_enum` never produces it. -/
inductive PadButton where
  | BTN_NONE
  | BTN_A
  | BTN_ANALOG_UP
  | BTN_ANALOG_DOWN
  | BTN_ANALOG_LEFT
  | BTN_ANALOG_RIGHT
  | BTN_B
  | BTN_DOWN
  | BTN_DPAD_DOWN
  | BTN_DPAD_LEFT
  | BTN_DPAD_RIGHT
  | BTN_DPAD_UP
  | BTN_L1
  | BTN_L2
  | BTN_L3
  | BTN_LEFT
  | BTN_MENU
  | BTN_MINUS
  | BTN_PLUS
  | BTN_POWER
  | BTN_POWEROFF
  | BTN_R1
  | BTN_R2
  | BTN_R3
  | BTN_RIGHT
  | BTN_START
  | BTN_SELECT
  | BTN_UP
  | BTN_X
  | BTN_Y
  deriving DecidableEq, Repr

/-- Modelled from the spec: the Input Source of `api.h` (`PAD_poll` and the four `PAD_*`
queries), which is not part of the sources at hand. A snapshot is what one `PAD_poll`
leaves behind: four independent per-button readings. -/
structure Snapshot where
  PAD_justPressed : PadButton → Bool
  PAD_isPressed : PadButton → Bool
  PAD_justReleased : PadButton → Bool
  PAD_justRepeated : PadButton → Bool

/-- The table `valid_buttons` of the source, in source order (30 entries). -/
def valid_buttons : List CStr :=
  [ "BTN_A".toList,
    "BTN_ANALOG_DOWN".toList,
    "BTN_ANALOG_LEFT".toList,
    "BTN_ANALOG_RIGHT".toList,
    "BTN_ANALOG_UP".toList,
    "BTN_B".toList,
    "BTN_DOWN".toList,
    "BTN_DPAD_DOWN".toList,
    "BTN_DPAD_LEFT".toList,
    "BTN_DPAD_RIGHT".toList,
    "BTN_DPAD_UP".toList,
    "BTN_L1".toList,
    "BTN_L2".toList,
    "BTN_L3".toList,
    "BTN_LEFT".toList,
    "BTN_MENU".toList,
    "BTN_MINUS".toList,
    "BTN_NONE".toList,
    "BTN_PLUS".toList,
    "BTN_POWER".toList,
    "BTN_POWEROFF".toList,
    "BTN_R1".toList,
    "BTN_R2".toList,
    "BTN_R3".toList,
    "BTN_RIGHT".toList,
    "BTN_SELECT".toList,
    "BTN_START".toList,
    "BTN_UP".toList,
    "BTN_X".toList,
    "BTN_Y".toList ]

/-- The chain of `strcmp` tests of `button_to_enum`, in source order; the final `else`
yields `BTN_NONE`. -/
def button_to_enum (button_str : CStr) : PadButton :=
  if button_str = "BTN_A".toList then PadButton.BTN_A
  else if button_str = "BTN_ANALOG_UP".toList then PadButton.BTN_ANALOG_UP
  else if button_str = "BTN_ANALOG_DOWN".toList then PadButton.BTN_ANALOG_DOWN
  else if button_str = "BTN_ANALOG_LEFT".toList then PadButton.BTN_ANALOG_LEFT
  else if button_str = "BTN_ANALOG_RIGHT".toList then PadButton.BTN_ANALOG_RIGHT
  else if button_str = "BTN_B".toList then PadButton.BTN_B
  else if button_str = "BTN_DOWN".toList then PadButton.BTN_DOWN
  else if button_str = "BTN_DPAD_DOWN".toList then PadButton.BTN_DPAD_DOWN
  else if button_str = "BTN_DPAD_LEFT".toList then PadButton.BTN_DPAD_LEFT
  else if button_str = "BTN_DPAD_RIGHT".toList then PadButton.BTN_DPAD_RIGHT
  else if button_str = "BTN_DPAD_UP".toList then PadButton.BTN_DPAD_UP
  else if button_str = "BTN_L1".toList then PadButton.BTN_L1
  else if button_str = "BTN_L2".toList then PadButton.BTN_L2
  else if button_str = "BTN_L3".toList then PadButton.BTN_L3
  else if button_str = "BTN_LEFT".toList then PadButton.BTN_LEFT
  else if button_str = "BTN_MENU".toList then PadButton.BTN_MENU
  else if button_str = "BTN_MINUS".toList then PadButton.BTN_MINUS
  else if button_str = "BTN_POWER".toList then PadButton.BTN_POWER
  else if button_str = "BTN_POWEROFF".toList then PadButton.BTN_POWEROFF
  else if button_str = "BTN_R1".toList then PadButton.BTN_R1
  else if button_str = "BTN_R2".toList then PadButton.BTN_R2
  else if button_str = "BTN_R3".toList then PadButton.BTN_R3
  else if button_str = "BTN_RIGHT".toList then PadButton.BTN_RIGHT
  else if button_str = "BTN_START".toList then PadButton.BTN_START
  else if button_str = "BTN_SELECT".toList then PadButton.BTN_SELECT
  else if button_str = "BTN_UP".toList then PadButton.BTN_UP
  else if button_str = "BTN_X".toList then PadButton.BTN_X
  else if button_str = "BTN_Y".toList then PadButton.BTN_Y
  else PadButton.BTN_NONE

/-! ## The evaluator (`handle_just_pressed` and its three siblings) -/

/-- The loop body shared, word for word, by `handle_just_pressed`, `handle_is_pressed`,
`handle_just_released` and `handle_just_repeated`; `pad` is the `PAD_*` query of the
function at hand and the list holds the slots `buttons[i]`, `buttons[i+1]`, ... still to
visit. A `NULL` slot breaks out of the loop; after the loop the result is `false` for
`BTN_COMBO_EITHER` and `true` otherwise. Next to the result, the queries made are
returned in the order they are made. -/
def button_scan (pad : PadButton → Bool) (combination : ButtonCombination) :
    List (Option CStr) → Bool × List PadButton
  | [] => (decide (combination ≠ BTN_COMBO_EITHER), [])
  | none :: _ => (decide (combination ≠ BTN_COMBO_EITHER), [])
  | some button :: rest =>
    let button_enum := button_to_enum button
    if combination = BTN_COMBO_EITHER then
      if pad button_enum then (true, [button_enum])
      else
        let r := button_scan pad combination rest
        (r.1, button_enum :: r.2)
    else if !pad button_enum then (false, [button_enum])
    else
      let r := button_scan pad combination rest
      (r.1, button_enum :: r.2)

/-- The source's `handle_just_pressed`: `for (int i = 0; i < 30; i++)` over `buttons`. -/
def handle_just_pressed (state : AppState) (S : Snapshot) : Bool :=
  (button_scan S.PAD_justPressed state.button.combination (state.button.buttons.take 30)).1

/-- The source's `handle_is_pressed`. -/
def handle_is_pressed (state : AppState) (S : Snapshot) : Bool :=
  (button_scan S.PAD_isPressed state.button.combination (state.button.buttons.take 30)).1

/-- The source's `handle_just_released`. -/
def handle_just_released (state : AppState) (S : Snapshot) : Bool :=
  (button_scan S.PAD_justReleased state.button.combination (state.button.buttons.take 30)).1

/-- The source's `handle_just_repeated`. -/
def handle_just_repeated (state : AppState) (S : Snapshot) : Bool :=
  (button_scan S.PAD_justRepeated state.button.combination (state.button.buttons.take 30)).1

/-- The value of the local `result` of `handle_input` after its `switch`. -/
def handle_input_result (state : AppState) (S : Snapshot) : Bool :=
  match state.button.state with
  | STATE_JUST_PRESSED => handle_just_pressed state S
  | STATE_IS_PRESSED => handle_is_pressed state S
  | STATE_JUST_RELEASED => handle_just_released state S
  | STATE_JUST_REPEATED => handle_just_repeated state S

/-- The source's `handle_input`; `S` is the snapshot its `PAD_poll ()` call produced. -/
def handle_input (state : AppState) (S : Snapshot) : AppState :=
  if handle_input_result state S then
    { state with quitting := 1, exit_code := ExitCodeSuccess }
  else if state.button.mode = MODE_CAPTURE then
    { state with quitting := 1, exit_code := ExitCodeError }
  else state

/-! ## Argument parsing -/

/-- The C library's `toupper` in the "C" locale (the program never calls `setlocale`):
`a`..`z` are mapped to `A`..`Z`, every other character is left alone. -/
def toupper (c : Char) : Char :=
  if 97 ≤ c.toNat ∧ c.toNat ≤ 122 then Char.ofNat (c.toNat - 32) else c

/-- The source's `strtoupper`: every character up to the terminating NUL is replaced by
its `toupper`. -/
def strtoupper (str : CStr) : CStr :=
  str.map toupper

/-- The source's `is_valid_button`: `false` on `NULL`, else a linear search of
`valid_buttons` with `strcmp`. -/
def is_valid_button : Option CStr → Bool
  | none => false
  | some button => valid_buttons.any (fun v => decide (button = v))

/-- One call of the C library's `strtok` with the delimiter set `","`, on what is left of
the buffer: leading delimiters are skipped; if nothing is left the call returns `NULL`;
otherwise the token runs up to the next delimiter (or the end), and the text after that
delimiter is what the next call continues with. -/
def strtok (s : CStr) : Option (CStr × CStr) :=
  let s1 := s.dropWhile (fun c => c == ',')
  if s1 = [] then none
  else some (s1.takeWhile (fun c => c != ','), (s1.dropWhile (fun c => c != ',')).drop 1)

/-- The tokens returned by `strtok (buf, ",")` and the following `strtok (NULL, ",")`
calls until one returns `NULL` (see `strtok_tokens_unfold` for the link with `strtok`):
a left-to-right scan, `cur` being the token read so far. -/
def strtok_scan : CStr → CStr → List CStr
  | cur, [] => if cur = [] then [] else [cur]
  | cur, c :: cs =>
    if c = ',' then
      if cur = [] then strtok_scan [] cs else cur :: strtok_scan [] cs
    else strtok_scan (cur ++ [c]) cs

/-- The successive results of `strtok` on `buf`. -/
def strtok_tokens (buf : CStr) : List CStr :=
  strtok_scan [] buf

/-- The C string found at the start of the buffer once `strtok (buf, ",")` has been called:
`strtok` overwrites the delimiter that ends the first token with NUL, so the string now
stops there (later calls write further to the right only). The leading delimiters
`strtok` skipped are still in it. -/
def strtok_buffer (buf : CStr) : CStr :=
  buf.takeWhile (fun c => c == ',') ++
    (buf.dropWhile (fun c => c == ',')).takeWhile (fun c => c != ',')

/-- The assignment `state->button.buttons[i] = p`. The array has 30 slots; a store at an
index of 30 or more is a write past the end of the array, into memory that is not part of
this model: it changes none of the 30 slots, it shows in the list of store indices that
`parse_args` reports, and `parse_overrun` flags it as undefined behaviour. -/
def store_button (buttons : List (Option CStr)) (i : Nat) (p : CStr) : List (Option CStr) :=
  if i < 30 then buttons.set i (some p) else buttons

/-- The `while (buttons != NULL)` loop of `parse_args` over the tokens still to come,
`i` being the loop counter: `(false, ..)` when a token fails `is_valid_button` (the
function then formats `"invalid button: %s"` into its `char buff[256]` with `sprintf`,
logs it and returns `ExitCodeParseError`), else the token is stored at index `i`.
The result carries the `buttons` array, the indices stored at, in order, and the text
that `sprintf` has written into `buff`, if any. -/
def parse_buttons :
    List CStr → Nat → List (Option CStr) → Bool × List (Option CStr) × List Nat × Option CStr
  | [], _, buttons => (true, buttons, [], none)
  | tok :: rest, i, buttons =>
    if !is_valid_button (some tok) then
      (false, buttons, [], some ("invalid button: ".toList ++ tok))
    else
      let r := parse_buttons rest (i + 1) (store_button buttons i tok)
      (r.1, r.2.1, i :: r.2.2.1, r.2.2.2)

/-- The loop `buttons[i] = strdup (valid_buttons[i])` over the whole table. -/
def store_valid_buttons (buttons : List (Option CStr)) : List (Option CStr) :=
  valid_buttons.enum.foldl (fun b iv => store_button b iv.1 iv.2) buttons

/-- The `strcmp` chain on `argv[1]`; `none` is the `invalid mode` branch. -/
def parse_mode (a : CStr) : Option ButtonMode :=
  if a = "CAPTURE".toList then some MODE_CAPTURE
  else if a = "WAIT".toList then some MODE_WAIT
  else none

/-- The `strcmp` chain on `argv[2]`; `none` is the `invalid event type` branch. -/
def parse_state (a : CStr) : Option ButtonState :=
  if a = "JUST_PRESSED".toList then some STATE_JUST_PRESSED
  else if a = "IS_PRESSED".toList then some STATE_IS_PRESSED
  else if a = "JUST_RELEASED".toList then some STATE_JUST_RELEASED
  else if a = "JUST_REPEATED".toList then some STATE_JUST_REPEATED
  else none

/-- The `strcmp` chain on `argv[3]`; `none` is the `invalid combination` branch. -/
def parse_combination (a : CStr) : Option ButtonCombination :=
  if a = "ALL".toList then some BTN_COMBO_ALL
  else if a = "ANY".toList then some BTN_COMBO_ANY
  else if a = "EITHER".toList then some BTN_COMBO_EITHER
  else none

/-- The first loop of `parse_args`: `argv[i] = strtoupper (argv[i])` for `1 ≤ i < argc`. -/
def upcase_args : List CStr → List CStr
  | [] => []
  | prog :: rest => prog :: rest.map strtoupper

/-- What a call of `parse_args` leaves behind: the returned code, the `AppState` it wrote
to, the argument strings (they are modified in place), the indices of the `buttons`
array it stored at, in order, and the text that a rejecting branch has formatted with
`sprintf` into its local `char buff[256]` (`none` when no such branch ran). -/
structure ParseResult where
  code : Int
  state : AppState
  argv : List CStr
  stores : List Nat
  buff : Option CStr
  deriving DecidableEq, Repr

/-- Whether a call of `parse_args` has written outside an object, which is undefined
behaviour in C: a store into `buttons` at an index of 30 or more, or a `sprintf` whose
text, with its terminating NUL, does not fit into `char buff[256]`. -/
def parse_overrun (r : ParseResult) : Bool :=
  r.stores.any (fun i => decide (30 ≤ i)) ||
    (match r.buff with
     | some text => decide (256 < text.length + 1)
     | none => false)

/-- The end of `parse_args` (from the `BTN_COMBO_ANY` trick on): `stores` are the indices
stored at so far. -/
def parse_args_finish (state : AppState) (argv : List CStr) (stores : List Nat) : ParseResult :=
  if state.button.combination = BTN_COMBO_ANY then
    { code := ExitCodeSuccess,
      state := { state with button := { state.button with
        combination := BTN_COMBO_EITHER,
        buttons := store_valid_buttons state.button.buttons } },
      argv := argv,
      stores := stores ++ List.range valid_buttons.length,
      buff := none }
  else
    { code := ExitCodeSuccess, state := state, argv := argv, stores := stores, buff := none }

/-- The source's `parse_args`, `argc` being the length of `argv`. A branch that rejects an
argument formats its message into `char buff[256]` with `sprintf` before it returns:
`buff` holds that text (a missing argument is rejected without any message). -/
def parse_args (state : AppState) (argv : List CStr) : ParseResult :=
  let argv := upcase_args argv
  match argv[1]? with
  | none =>
    { code := ExitCodeParseError, state := state, argv := argv, stores := [], buff := none }
  | some a1 =>
  match parse_mode a1 with
  | none =>
    { code := ExitCodeParseError, state := state, argv := argv, stores := [],
      buff := some ("invalid mode: ".toList ++ a1) }
  | some m =>
  let state := { state with button := { state.button with mode := m } }
  match argv[2]? with
  | none =>
    { code := ExitCodeParseError, state := state, argv := argv, stores := [], buff := none }
  | some a2 =>
  match parse_state a2 with
  | none =>
    { code := ExitCodeParseError, state := state, argv := argv, stores := [],
      buff := some ("invalid event type: ".toList ++ a2) }
  | some s =>
  let state := { state with button := { state.button with state := s } }
  match argv[3]? with
  | none =>
    { code := ExitCodeParseError, state := state, argv := argv, stores := [], buff := none }
  | some a3 =>
  match parse_combination a3 with
  | none =>
    { code := ExitCodeParseError, state := state, argv := argv, stores := [],
      buff := some ("invalid combination: ".toList ++ a3) }
  | some c =>
  let state := { state with button := { state.button with combination := c } }
  match argv[4]? with
  | none => parse_args_finish state argv []
  | some a4 =>
  let r := parse_buttons (strtok_tokens a4) 0 state.button.buttons
  let state := { state with button := { state.button with buttons := r.2.1 } }
  let argv := argv.set 4 (strtok_buffer a4)
  if r.1 then parse_args_finish state argv r.2.2.1
  else
    { code := ExitCodeParseError, state := state, argv := argv, stores := r.2.2.1,
      buff := r.2.2.2 }

/-! ## The poll loop and `main` -/

/-- The `AppState` that `main` starts from: all 30 `buttons` slots are `NULL`. -/
def initial_state : AppState :=
  { quitting := 0,
    exit_code := ExitCodeError,
    button :=
      { combination := BTN_COMBO_ALL,
        state := STATE_JUST_PRESSED,
        mode := MODE_CAPTURE,
        buttons := List.replicate 30 none } }

/-- The loop `while (!state.quitting)` of `main` (a `handle_input` call, then a 50 ms
`usleep`, per tick), run on the snapshots that the successive `PAD_poll` calls produce. It returns the
state reached and the number of ticks executed; when the snapshots run out with
`quitting` still 0, the loop has not terminated yet. -/
def poll_loop : AppState → List Snapshot → AppState × Nat
  | state, [] => (state, 0)
  | state, S :: rest =>
    if state.quitting ≠ 0 then (state, 0)
    else
      let r := poll_loop (handle_input state S) rest
      (r.1, r.2 + 1)

/-- The source's `main` on the arguments `argv` and the snapshots of the successive
ticks: the exit status and the number of ticks executed. The status is `none` when the
program has not returned one: the loop has not terminated on the snapshots given, or
`parse_args` has written outside an object (`parse_overrun`), after which the behaviour of
the program is undefined and nothing is said about it. Signals are not part of this
model. -/
def main (argv : List CStr) (pad : List Snapshot) : Option Int × Nat :=
  let r := parse_args initial_state argv
  if parse_overrun r = true then (none, 0)
  else if r.code ≠ ExitCodeSuccess then (some ExitCodeParseError, 0)
  else
    let l := poll_loop r.state pad
    (if l.1.quitting ≠ 0 then some l.1.exit_code else none, l.2)

/-- The predicate that a temporal state names, read from a snapshot. -/
def state_query (s : ButtonState) (S : Snapshot) : PadButton → Bool :=
  match s with
  | STATE_JUST_PRESSED => S.PAD_justPressed
  | STATE_IS_PRESSED => S.PAD_isPressed
  | STATE_JUST_RELEASED => S.PAD_justReleased
  | STATE_JUST_REPEATED => S.PAD_justRepeated

/-- The `buttons` array holding the names `B` in its first slots and `NULL` after them. -/
def button_slots (B : List CStr) : List (Option CStr) :=
  B.map some ++ List.replicate (30 - B.length) none

/-- A reading that is `true` on exactly the buttons listed. -/
def pad_of (l : List PadButton) : PadButton → Bool :=
  fun b => decide (b ∈ l)

/-- A snapshot in which `BTN_A` alone is just pressed (and nothing else is reported). -/
def snapshot_a_just_pressed : Snapshot :=
  { PAD_justPressed := pad_of [PadButton.BTN_A],
    PAD_isPressed := pad_of [],
    PAD_justReleased := pad_of [],
    PAD_justRepeated := pad_of [] }

/-- A snapshot in which `BTN_A` and `BTN_B` are both just pressed. -/
def snapshot_ab_just_pressed : Snapshot :=
  { PAD_justPressed := pad_of [PadButton.BTN_A, PadButton.BTN_B],
    PAD_isPressed := pad_of [],
    PAD_justReleased := pad_of [],
    PAD_justRepeated := pad_of [] }

/-- A snapshot in which nothing is reported for any button. -/
def snapshot_idle : Snapshot :=
  { PAD_justPressed := pad_of [],
    PAD_isPressed := pad_of [],
    PAD_justReleased := pad_of [],
    PAD_justRepeated := pad_of [] }

/-- The state `main` holds after parsing `prog <mode> JUST_PRESSED <combination> BTN_A,BTN_B`. -/
def state_ab (mode : ButtonMode) (combination : ButtonCombination) : AppState :=
  { quitting := 0,
    exit_code := ExitCodeError,
    button :=
      { combination := combination,
        state := STATE_JUST_PRESSED,
        mode := mode,
        buttons := button_slots ["BTN_A".toList, "BTN_B".toList] } }

/-- The argument vector `prog <mode> JUST_PRESSED <combination> BTN_A,BTN_B`. -/
def argv_ab (mode combination : String) : List CStr :=
  ["prog".toList, mode.toList, "JUST_PRESSED".toList, combination.toList,
    "BTN_A,BTN_B".toList]

/-- The buttons argument that lists the whole table `valid_buttons`, in table order,
separated by commas. -/
def catalog_argument : CStr :=
  List.intercalate [','] valid_buttons

/-- The signal number `SIGINT` of `<signal.h>` (its POSIX value). -/
def SIGINT : Int := 2

/-- The signal number `SIGTERM` of `<signal.h>` (its POSIX value). -/
def SIGTERM : Int := 15

/-- The source's `signal_handler`: the status it hands to `exit`. -/
def signal_handler (signal : Int) : Int :=
  if signal = SIGINT then ExitCodeKeyboardInterrupt
  else if signal = SIGTERM then ExitCodeSigterm
  else ExitCodeError

/-- The `PAD_*` queries that the function selected by the `switch` of `handle_input` makes,
in the order it makes them (the second component of `button_scan`). -/
def handle_input_queries (state : AppState) (S : Snapshot) : List PadButton :=
  match state.button.state with
  | STATE_JUST_PRESSED =>
    (button_scan S.PAD_justPressed state.button.combination (state.button.buttons.take 30)).2
  | STATE_IS_PRESSED =>
    (button_scan S.PAD_isPressed state.button.combination (state.button.buttons.take 30)).2
  | STATE_JUST_RELEASED =>
    (button_scan S.PAD_justReleased state.button.combination (state.button.buttons.take 30)).2
  | STATE_JUST_REPEATED =>
    (button_scan S.PAD_justRepeated state.button.combination (state.button.buttons.take 30)).2

/-- The non-empty comma-separated fields of a string, in order. -/
def non_empty_fields (s : CStr) : List CStr :=
  (s.splitOn ',').filter (fun f => decide (f ≠ []))

/-- A snapshot in which `BTN_PLUS` alone is pressed. -/
def snapshot_plus_pressed : Snapshot :=
  { PAD_justPressed := pad_of [],
    PAD_isPressed := pad_of [PadButton.BTN_PLUS],
    PAD_justReleased := pad_of [],
    PAD_justRepeated := pad_of [] }

/-- The argument vector `prog WAIT IS_PRESSED EITHER BTN_A,BTN_A,...` with `n` times `BTN_A`. -/
def argv_repeat_a (n : Nat) : List CStr :=
  ["prog".toList, "WAIT".toList, "IS_PRESSED".toList, "EITHER".toList,
    List.intercalate [','] (List.replicate n "BTN_A".toList)]

/-- A snapshot that agrees with `snapshot_ab_just_pressed` on the just-pressed reading and
differs from it on the three others. -/
def snapshot_ab_mixed : Snapshot :=
  { PAD_justPressed := pad_of [PadButton.BTN_A, PadButton.BTN_B],
    PAD_isPressed := pad_of [PadButton.BTN_A, PadButton.BTN_B, PadButton.BTN_X],
    PAD_justReleased := pad_of [PadButton.BTN_Y],
    PAD_justRepeated := pad_of [PadButton.BTN_A] }

/-- The state `state` with the names `B` in its `buttons` array. -/
def with_buttons (state : AppState) (B : List CStr) : AppState :=
  { state with button := { state.button with buttons := button_slots B } }

/-- The argument vector `prog xxx...x` whose mode argument is 300 times the letter `x`. -/
def argv_long_mode : List CStr :=
  ["prog".toList, List.replicate 300 'x']

/-- The argument vector `prog WAIT IS_PRESSED EITHER BTN_A,...,BTN_A,BTN_FOO` with 31 times
`BTN_A` before the unknown name `BTN_FOO`. -/
def argv_repeat_a_then_foo : List CStr :=
  ["prog".toList, "WAIT".toList, "IS_PRESSED".toList, "EITHER".toList,
    List.intercalate [','] (List.replicate 31 "BTN_A".toList ++ ["BTN_FOO".toList])]

/-! ## Lemmas on the evaluator -/

theorem button_scan_not_either (pad : PadButton → Bool) (c : ButtonCombination)
    (hc : c ≠ BTN_COMBO_EITHER) (B : List CStr) (k : Nat) :
    (button_scan pad c (B.map some ++ List.replicate k none)).1
      = B.all (fun b => pad (button_to_enum b)) := by
  induction B with
  | nil => cases k <;> simp [button_scan, hc, List.replicate_succ]
  | cons b rest ih =>
    simp only [List.map_cons, List.cons_append, button_scan, hc, if_false, List.all_cons]
    cases h : pad (button_to_enum b) <;> simp [ih]

theorem button_scan_either (pad : PadButton → Bool) (B : List CStr) (k : Nat) :
    (button_scan pad BTN_COMBO_EITHER (B.map some ++ List.replicate k none)).1
      = B.any (fun b => pad (button_to_enum b)) := by
  induction B with
  | nil => cases k <;> simp [button_scan, List.replicate_succ]
  | cons b rest ih =>
    simp only [List.map_cons, List.cons_append, button_scan, if_true, List.any_cons]
    cases h : pad (button_to_enum b) <;> simp [ih]

theorem button_slots_length (B : List CStr) (h : B.length ≤ 30) :
    (button_slots B).length = 30 := by
  simp [button_slots]; omega

theorem button_slots_take (B : List CStr) (h : B.length ≤ 30) :
    (button_slots B).take 30 = button_slots B := by
  apply List.take_of_length_le
  rw [button_slots_length B h]

/-- The local `result` of `handle_input` is the scan of the first 30 slots with the
query that the configured state names. -/
theorem handle_input_result_eq (state : AppState) (S : Snapshot) :
    handle_input_result state S
      = (button_scan (state_query state.button.state S) state.button.combination
          (state.button.buttons.take 30)).1 := by
  unfold handle_input_result
  cases state.button.state <;>
    simp [state_query, handle_just_pressed, handle_is_pressed, handle_just_released,
      handle_just_repeated]

theorem handle_input_result_not_either (state : AppState) (S : Snapshot) (B : List CStr)
    (hlen : B.length ≤ 30) (hB : state.button.buttons = button_slots B)
    (hc : state.button.combination ≠ BTN_COMBO_EITHER) :
    handle_input_result state S
      = B.all (fun b => state_query state.button.state S (button_to_enum b)) := by
  rw [handle_input_result_eq, hB, button_slots_take B hlen, button_slots]
  exact button_scan_not_either _ _ hc B _

theorem handle_input_result_either (state : AppState) (S : Snapshot) (B : List CStr)
    (hlen : B.length ≤ 30) (hB : state.button.buttons = button_slots B)
    (hc : state.button.combination = BTN_COMBO_EITHER) :
    handle_input_result state S
      = B.any (fun b => state_query state.button.state S (button_to_enum b)) := by
  rw [handle_input_result_eq, hB, button_slots_take B hlen, button_slots, hc]
  exact button_scan_either _ B _

/-! ## C1, C2: what the evaluator computes -/

/-- C1: under combination ALL, for every temporal state, every non-empty list `B` of at
most 30 button names held in the `buttons` array, and every snapshot, the evaluator that
`handle_input` selects returns `true` exactly when every button of `B`, resolved by
`button_to_enum`, satisfies the configured state's predicate in the snapshot, and `false`
exactly when some button of `B` does not. -/
theorem all_semantics (state : AppState) (S : Snapshot) (B : List CStr)
    (hne : B ≠ []) (hlen : B.length ≤ 30)
    (hB : state.button.buttons = button_slots B)
    (hc : state.button.combination = BTN_COMBO_ALL) :
    (handle_input_result state S = true ↔
        ∀ b ∈ B, state_query state.button.state S (button_to_enum b) = true) ∧
    (handle_input_result state S = false ↔
        ∃ b ∈ B, state_query state.button.state S (button_to_enum b) = false) := by
  have hce : state.button.combination ≠ BTN_COMBO_EITHER := by rw [hc]; decide
  have _ := hne
  rw [handle_input_result_not_either state S B hlen hB hce]
  constructor
  · simp [List.all_eq_true]
  · rw [← Bool.not_eq_true, List.all_eq_true]
    simp

theorem all_semantics_witness :
    (["BTN_A".toList, "BTN_B".toList] : List CStr) ≠ [] ∧
    (handle_input_result (state_ab MODE_CAPTURE BTN_COMBO_ALL) snapshot_a_just_pressed = false ↔
      ∃ b ∈ (["BTN_A".toList, "BTN_B".toList] : List CStr),
        state_query (state_ab MODE_CAPTURE BTN_COMBO_ALL).button.state snapshot_a_just_pressed
          (button_to_enum b) = false) ∧
    handle_input_result (state_ab MODE_CAPTURE BTN_COMBO_ALL) snapshot_a_just_pressed = false ∧
    handle_input_result (state_ab MODE_CAPTURE BTN_COMBO_ALL) snapshot_ab_just_pressed = true :=
  ⟨by decide,
   (all_semantics (state_ab MODE_CAPTURE BTN_COMBO_ALL) snapshot_a_just_pressed
      ["BTN_A".toList, "BTN_B".toList] (by decide) (by decide) rfl rfl).2,
   by decide, by decide⟩

/-- C2: under combination EITHER, for every temporal state, every list `B` of at most 30
button names held in the `buttons` array, and every snapshot, the evaluator that
`handle_input` selects returns `true` exactly when at least one button of `B`, resolved
by `button_to_enum`, satisfies the configured state's predicate in the snapshot. -/
theorem either_semantics (state : AppState) (S : Snapshot) (B : List CStr)
    (hlen : B.length ≤ 30)
    (hB : state.button.buttons = button_slots B)
    (hc : state.button.combination = BTN_COMBO_EITHER) :
    handle_input_result state S = true ↔
      ∃ b ∈ B, state_query state.button.state S (button_to_enum b) = true := by
  rw [handle_input_result_either state S B hlen hB hc]
  simp [List.any_eq_true]

theorem either_semantics_witness :
    (handle_input_result (state_ab MODE_WAIT BTN_COMBO_EITHER) snapshot_a_just_pressed = true ↔
      ∃ b ∈ (["BTN_A".toList, "BTN_B".toList] : List CStr),
        state_query (state_ab MODE_WAIT BTN_COMBO_EITHER).button.state snapshot_a_just_pressed
          (button_to_enum b) = true) ∧
    handle_input_result (state_ab MODE_WAIT BTN_COMBO_EITHER) snapshot_a_just_pressed = true ∧
    handle_input_result (state_ab MODE_WAIT BTN_COMBO_EITHER) snapshot_idle = false :=
  ⟨either_semantics (state_ab MODE_WAIT BTN_COMBO_EITHER) snapshot_a_just_pressed
      ["BTN_A".toList, "BTN_B".toList] (by decide) rfl rfl,
   by decide, by decide⟩

/-! ## C3, C4: the poll loop -/

/-- The evaluator reads the `button` member only. -/
theorem handle_input_result_congr (s t : AppState) (S : Snapshot) (h : s.button = t.button) :
    handle_input_result s S = handle_input_result t S := by
  simp [handle_input_result_eq, h]

/-- A tick that does not match leaves the whole state alone in WAIT mode. -/
theorem handle_input_wait_no_match (state : AppState) (S : Snapshot)
    (hm : state.button.mode = MODE_WAIT) (hr : handle_input_result state S = false) :
    handle_input state S = state := by
  simp [handle_input, hr, hm]

/-- A tick that matches sets `quitting` and the success code, in either mode. -/
theorem handle_input_match (state : AppState) (S : Snapshot)
    (hr : handle_input_result state S = true) :
    handle_input state S = { state with quitting := 1, exit_code := ExitCodeSuccess } := by
  simp [handle_input, hr]

/-- Once `quitting` is set the loop executes no further tick. -/
theorem poll_loop_quitting (state : AppState) (pad : List Snapshot) (hq : state.quitting ≠ 0) :
    poll_loop state pad = (state, 0) := by
  cases pad <;> simp [poll_loop, hq]

/-- C3: in CAPTURE mode, from a running state (`quitting = 0`), whatever the watched
buttons, state and combination and whatever the first snapshot, the poll loop executes
exactly one tick, however many snapshots would follow, and ends with `quitting = 1`, the
watch configuration untouched, and exit code 0 if the evaluator matched, 1 if not. -/
theorem capture_termination (state : AppState) (S : Snapshot) (rest : List Snapshot)
    (hq : state.quitting = 0) (hm : state.button.mode = MODE_CAPTURE) :
    poll_loop state (S :: rest)
      = ({ state with
            quitting := 1,
            exit_code := if handle_input_result state S then ExitCodeSuccess else ExitCodeError },
          1) := by
  cases hr : handle_input_result state S
  · have h1 : handle_input state S = { state with quitting := 1, exit_code := ExitCodeError } := by
      simp [handle_input, hr, hm]
    simp [poll_loop, hq, h1, poll_loop_quitting]
  · simp [poll_loop, hq, handle_input_match state S hr, poll_loop_quitting]

theorem capture_termination_witness :
    (parse_args initial_state (argv_ab "CAPTURE" "ALL")).code = ExitCodeSuccess ∧
    (parse_args initial_state (argv_ab "CAPTURE" "ALL")).state
      = state_ab MODE_CAPTURE BTN_COMBO_ALL ∧
    poll_loop (state_ab MODE_CAPTURE BTN_COMBO_ALL) [snapshot_a_just_pressed, snapshot_ab_just_pressed]
      = ({ state_ab MODE_CAPTURE BTN_COMBO_ALL with
            quitting := 1,
            exit_code :=
              if handle_input_result (state_ab MODE_CAPTURE BTN_COMBO_ALL) snapshot_a_just_pressed
              then ExitCodeSuccess else ExitCodeError },
          1) ∧
    main (argv_ab "CAPTURE" "ALL") [snapshot_a_just_pressed, snapshot_ab_just_pressed]
      = (some 1, 1) :=
  ⟨by decide, by decide,
   capture_termination (state_ab MODE_CAPTURE BTN_COMBO_ALL) snapshot_a_just_pressed
      [snapshot_ab_just_pressed] rfl rfl,
   by decide⟩

/-- Ticks that do not match leave a WAIT-mode state alone, and all of them are executed. -/
theorem poll_loop_wait_no_match (state : AppState) (pad : List Snapshot)
    (hq : state.quitting = 0) (hm : state.button.mode = MODE_WAIT)
    (hpad : ∀ S ∈ pad, handle_input_result state S = false) :
    poll_loop state pad = (state, pad.length) := by
  induction pad with
  | nil => simp [poll_loop]
  | cons S rest ih =>
    have hS := hpad S (List.mem_cons_self _ _)
    have hrest : ∀ T ∈ rest, handle_input_result state T = false :=
      fun T hT => hpad T (List.mem_cons_of_mem _ hT)
    simp [poll_loop, hq, handle_input_wait_no_match state S hm hS, ih hrest]

/-- A match after `pre.length` ticks without one ends the loop at that tick. -/
theorem poll_loop_wait_match (state : AppState) (pre : List Snapshot) (Sk : Snapshot)
    (post : List Snapshot)
    (hq : state.quitting = 0) (hm : state.button.mode = MODE_WAIT)
    (hpre : ∀ S ∈ pre, handle_input_result state S = false)
    (hk : handle_input_result state Sk = true) :
    poll_loop state (pre ++ Sk :: post)
      = ({ state with quitting := 1, exit_code := ExitCodeSuccess }, pre.length + 1) := by
  induction pre with
  | nil => simp [poll_loop, hq, handle_input_match state Sk hk, poll_loop_quitting]
  | cons S rest ih =>
    have hS := hpre S (List.mem_cons_self _ _)
    have hrest : ∀ T ∈ rest, handle_input_result state T = false :=
      fun T hT => hpre T (List.mem_cons_of_mem _ hT)
    simp [poll_loop, hq, handle_input_wait_no_match state S hm hS, ih hrest]

/-- C4: in WAIT mode, from a running state, on snapshots of which the first matching one is
at tick `k = pre.length`: after each number `j ≤ k` of ticks the loop has executed all `j`
of them and the state is the one it started from (`quitting` still 0, exit code
untouched); on the matching tick the loop ends, after exactly `k + 1` ticks, with
`quitting = 1` and exit code 0, whatever snapshots would follow. -/
theorem wait_continuation (state : AppState) (pre : List Snapshot) (Sk : Snapshot)
    (post : List Snapshot)
    (hq : state.quitting = 0) (hm : state.button.mode = MODE_WAIT)
    (hpre : ∀ S ∈ pre, handle_input_result state S = false)
    (hk : handle_input_result state Sk = true) :
    (∀ j, j ≤ pre.length → poll_loop state (pre.take j) = (state, j)) ∧
    poll_loop state (pre ++ Sk :: post)
      = ({ state with quitting := 1, exit_code := ExitCodeSuccess }, pre.length + 1) := by
  refine ⟨fun j hj => ?_, poll_loop_wait_match state pre Sk post hq hm hpre hk⟩
  have h := poll_loop_wait_no_match state (pre.take j) hq hm
    (fun S hS => hpre S (List.mem_of_mem_take hS))
  rw [h, List.length_take, Nat.min_eq_left hj]

theorem wait_continuation_witness :
    (parse_args initial_state (argv_ab "WAIT" "ALL")).state = state_ab MODE_WAIT BTN_COMBO_ALL ∧
    ((∀ j, j ≤ [snapshot_a_just_pressed, snapshot_idle].length →
        poll_loop (state_ab MODE_WAIT BTN_COMBO_ALL)
          ([snapshot_a_just_pressed, snapshot_idle].take j)
          = (state_ab MODE_WAIT BTN_COMBO_ALL, j)) ∧
      poll_loop (state_ab MODE_WAIT BTN_COMBO_ALL)
          ([snapshot_a_just_pressed, snapshot_idle] ++ snapshot_ab_just_pressed :: [snapshot_idle])
        = ({ state_ab MODE_WAIT BTN_COMBO_ALL with quitting := 1, exit_code := ExitCodeSuccess },
            [snapshot_a_just_pressed, snapshot_idle].length + 1)) ∧
    main (argv_ab "WAIT" "ALL")
        [snapshot_a_just_pressed, snapshot_idle, snapshot_ab_just_pressed, snapshot_idle]
      = (some 0, 3) ∧
    main (argv_ab "WAIT" "ALL") [snapshot_a_just_pressed, snapshot_idle] = (none, 2) :=
  ⟨by decide,
   wait_continuation (state_ab MODE_WAIT BTN_COMBO_ALL) [snapshot_a_just_pressed, snapshot_idle]
      snapshot_ab_just_pressed [snapshot_idle] rfl rfl (by decide) (by decide),
   by decide, by decide⟩

/-! ## Lemmas on argument parsing -/

theorem upcase_args_get (argv : List CStr) (i : Nat) :
    (upcase_args argv)[i + 1]? = (argv[i + 1]?).map strtoupper := by
  cases argv with
  | nil => simp [upcase_args]
  | cons prog rest => simp [upcase_args, List.getElem?_map]

theorem is_valid_button_iff (t : CStr) : is_valid_button (some t) = true ↔ t ∈ valid_buttons := by
  simp only [is_valid_button, List.any_eq_true, decide_eq_true_eq]
  constructor
  · rintro ⟨v, hv, rfl⟩; exact hv
  · intro h; exact ⟨t, h, rfl⟩

theorem parse_buttons_invalid (toks : List CStr) (i : Nat) (buttons : List (Option CStr))
    (h : ∃ t ∈ toks, t ∉ valid_buttons) : (parse_buttons toks i buttons).1 = false := by
  induction toks generalizing i buttons with
  | nil => simp at h
  | cons tok rest ih =>
    by_cases hv : is_valid_button (some tok) = true
    · have hrest : ∃ t ∈ rest, t ∉ valid_buttons := by
        obtain ⟨t, ht, hn⟩ := h
        rcases List.mem_cons.mp ht with rfl | ht
        · exact absurd ((is_valid_button_iff _).mp hv) hn
        · exact ⟨t, ht, hn⟩
      simp [parse_buttons, hv, ih _ _ hrest]
    · simp [parse_buttons, hv]

theorem parse_buttons_valid (toks : List CStr) (i : Nat) (buttons : List (Option CStr))
    (h : ∀ t ∈ toks, t ∈ valid_buttons) : (parse_buttons toks i buttons).1 = true := by
  induction toks generalizing i buttons with
  | nil => simp [parse_buttons]
  | cons tok rest ih =>
    have hv : is_valid_button (some tok) = true :=
      (is_valid_button_iff _).mpr (h tok (List.mem_cons_self _ _))
    simp [parse_buttons, hv, ih _ _ (fun t ht => h t (List.mem_cons_of_mem _ ht))]

theorem parse_args_finish_code (state : AppState) (argv : List CStr) (stores : List Nat) :
    (parse_args_finish state argv stores).code = ExitCodeSuccess := by
  unfold parse_args_finish; split <;> rfl

theorem parse_mode_eq_none (a : CStr) (h : a ≠ "CAPTURE".toList ∧ a ≠ "WAIT".toList) :
    parse_mode a = none := by
  unfold parse_mode
  rw [if_neg h.1, if_neg h.2]

theorem parse_state_eq_none (a : CStr)
    (h : a ≠ "JUST_PRESSED".toList ∧ a ≠ "IS_PRESSED".toList ∧ a ≠ "JUST_RELEASED".toList ∧
      a ≠ "JUST_REPEATED".toList) :
    parse_state a = none := by
  unfold parse_state
  rw [if_neg h.1, if_neg h.2.1, if_neg h.2.2.1, if_neg h.2.2.2]

theorem parse_combination_eq_none (a : CStr)
    (h : a ≠ "ALL".toList ∧ a ≠ "ANY".toList ∧ a ≠ "EITHER".toList) :
    parse_combination a = none := by
  unfold parse_combination
  rw [if_neg h.1, if_neg h.2.1, if_neg h.2.2]

/-- The return code of `parse_args`, read off its control flow: the code is
`ExitCodeParseError` as soon as one of the four stages fails. -/
theorem parse_args_code_of_fail (state : AppState) (argv : List CStr)
    (h : ((upcase_args argv)[1]?).bind parse_mode = none ∨
         ((upcase_args argv)[2]?).bind parse_state = none ∨
         ((upcase_args argv)[3]?).bind parse_combination = none ∨
         ∃ a4 t, (upcase_args argv)[4]? = some a4 ∧ t ∈ strtok_tokens a4 ∧ t ∉ valid_buttons) :
    (parse_args state argv).code = ExitCodeParseError := by
  unfold parse_args
  simp only []
  split
  · rfl
  · rename_i a1 h1
    split
    · rfl
    · rename_i m hm
      split
      · rfl
      · rename_i a2 h2
        split
        · rfl
        · rename_i s hs
          split
          · rfl
          · rename_i a3 h3
            split
            · rfl
            · rename_i c hc
              split
              · rename_i h4
                simp [h1, h2, h3, h4, hm, hs, hc] at h
              · rename_i a4 h4
                have hbad : ∃ t ∈ strtok_tokens a4, t ∉ valid_buttons := by
                  simpa [h1, h2, h3, h4, hm, hs, hc] using h
                simp [parse_buttons_invalid _ _ _ hbad]

theorem bind_parse_mode_none (a : Option CStr)
    (h : a ∉ [some "CAPTURE".toList, some "WAIT".toList]) : a.bind parse_mode = none := by
  cases a with
  | none => rfl
  | some x =>
    simp only [List.mem_cons, List.mem_singleton, Option.some.injEq, List.not_mem_nil,
      or_false, not_or] at h
    exact parse_mode_eq_none x h

theorem bind_parse_state_none (a : Option CStr)
    (h : a ∉ [some "JUST_PRESSED".toList, some "IS_PRESSED".toList,
      some "JUST_RELEASED".toList, some "JUST_REPEATED".toList]) :
    a.bind parse_state = none := by
  cases a with
  | none => rfl
  | some x =>
    simp only [List.mem_cons, List.mem_singleton, Option.some.injEq, List.not_mem_nil,
      or_false, not_or] at h
    exact parse_state_eq_none x ⟨h.1, h.2.1, h.2.2.1, h.2.2.2⟩

theorem bind_parse_combination_none (a : Option CStr)
    (h : a ∉ [some "ALL".toList, some "ANY".toList, some "EITHER".toList]) :
    a.bind parse_combination = none := by
  cases a with
  | none => rfl
  | some x =>
    simp only [List.mem_cons, List.mem_singleton, Option.some.injEq, List.not_mem_nil,
      or_false, not_or] at h
    exact parse_combination_eq_none x ⟨h.1, h.2.1, h.2.2⟩

/-- The failing stages of `parse_args`, stated on the arguments as given. -/
theorem parse_args_code_of_invalid (state : AppState) (argv : List CStr)
    (h : (argv[1]?).map strtoupper ∉ [some "CAPTURE".toList, some "WAIT".toList] ∨
         (argv[2]?).map strtoupper ∉ [some "JUST_PRESSED".toList, some "IS_PRESSED".toList,
            some "JUST_RELEASED".toList, some "JUST_REPEATED".toList] ∨
         (argv[3]?).map strtoupper ∉ [some "ALL".toList, some "ANY".toList,
            some "EITHER".toList] ∨
         ∃ a4 t, argv[4]? = some a4 ∧ t ∈ strtok_tokens (strtoupper a4) ∧ t ∉ valid_buttons) :
    (parse_args state argv).code = ExitCodeParseError := by
  apply parse_args_code_of_fail
  rw [upcase_args_get argv 0, upcase_args_get argv 1, upcase_args_get argv 2,
    upcase_args_get argv 3]
  rcases h with h | h | h | ⟨a4, t, h4, ht, hn⟩
  · exact Or.inl (bind_parse_mode_none _ h)
  · exact Or.inr (Or.inl (bind_parse_state_none _ h))
  · exact Or.inr (Or.inr (Or.inl (bind_parse_combination_none _ h)))
  · exact Or.inr (Or.inr (Or.inr ⟨strtoupper a4, t, by simp [h4], ht, hn⟩))

/-! ## C5: validation -/

/-- Validation as long as `parse_args` stays within its objects: for every argument vector
in which the mode, the state or the combination is missing or, once upper-cased, outside
its enumerated set, or in which some token of the comma-separated buttons argument
(upper-cased) is not an entry of `valid_buttons`, the code that `parse_args` returns is
the parse-error code 10, whatever state it is handed; and when the call has written
outside no object (`parse_overrun` is `false`), `main` returns 10 without executing any
tick. -/
theorem validation_in_bounds (state : AppState) (argv : List CStr) (pad : List Snapshot)
    (h : (argv[1]?).map strtoupper ∉ [some "CAPTURE".toList, some "WAIT".toList] ∨
         (argv[2]?).map strtoupper ∉ [some "JUST_PRESSED".toList, some "IS_PRESSED".toList,
            some "JUST_RELEASED".toList, some "JUST_REPEATED".toList] ∨
         (argv[3]?).map strtoupper ∉ [some "ALL".toList, some "ANY".toList,
            some "EITHER".toList] ∨
         ∃ a4 t, argv[4]? = some a4 ∧ t ∈ strtok_tokens (strtoupper a4) ∧ t ∉ valid_buttons)
    (hb : parse_overrun (parse_args initial_state argv) = false) :
    (parse_args state argv).code = ExitCodeParseError ∧
    main argv pad = (some ExitCodeParseError, 0) := by
  refine ⟨parse_args_code_of_invalid state argv h, ?_⟩
  have hc := parse_args_code_of_invalid initial_state argv h
  simp [main, hc, hb, ExitCodeParseError, ExitCodeSuccess]

theorem validation_in_bounds_examples :
    ((parse_args initial_state
        ["prog".toList, "FOO".toList, "JUST_PRESSED".toList, "ALL".toList, "BTN_A".toList]).code
        = ExitCodeParseError ∧
      main ["prog".toList, "FOO".toList, "JUST_PRESSED".toList, "ALL".toList, "BTN_A".toList]
        [snapshot_ab_just_pressed] = (some ExitCodeParseError, 0)) ∧
    ((parse_args initial_state
        ["prog".toList, "WAIT".toList, "FOO".toList, "ALL".toList, "BTN_A".toList]).code
        = ExitCodeParseError ∧
      main ["prog".toList, "WAIT".toList, "FOO".toList, "ALL".toList, "BTN_A".toList]
        [snapshot_ab_just_pressed] = (some ExitCodeParseError, 0)) ∧
    ((parse_args initial_state
        ["prog".toList, "WAIT".toList, "JUST_PRESSED".toList, "FOO".toList, "BTN_A".toList]).code
        = ExitCodeParseError ∧
      main ["prog".toList, "WAIT".toList, "JUST_PRESSED".toList, "FOO".toList, "BTN_A".toList]
        [snapshot_ab_just_pressed] = (some ExitCodeParseError, 0)) ∧
    ((parse_args initial_state
        ["prog".toList, "WAIT".toList, "JUST_PRESSED".toList, "ALL".toList,
          "BTN_A,BTN_FOO".toList]).code = ExitCodeParseError ∧
      main ["prog".toList, "WAIT".toList, "JUST_PRESSED".toList, "ALL".toList,
          "BTN_A,BTN_FOO".toList]
        [snapshot_ab_just_pressed] = (some ExitCodeParseError, 0)) ∧
    ((parse_args initial_state ["prog".toList, "WAIT".toList]).code = ExitCodeParseError ∧
      main ["prog".toList, "WAIT".toList] [snapshot_ab_just_pressed]
        = (some ExitCodeParseError, 0)) :=
  ⟨validation_in_bounds _ _ _ (Or.inl (by decide)) (by decide),
   validation_in_bounds _ _ _ (Or.inr (Or.inl (by decide))) (by decide),
   validation_in_bounds _ _ _ (Or.inr (Or.inr (Or.inl (by decide)))) (by decide),
   validation_in_bounds _ _ _ (Or.inr (Or.inr (Or.inr
      ⟨"BTN_A,BTN_FOO".toList, "BTN_FOO".toList, rfl, by decide, by decide⟩))) (by decide),
   validation_in_bounds _ _ _ (Or.inr (Or.inl (by decide))) (by decide)⟩

set_option maxRecDepth 100000 in
/-- C5, at the failing inputs. (1) `prog` followed by a mode argument of 300 letters `x`:
the mode is outside its enumerated set, and the rejecting branch formats
`"invalid mode: "` and the 300 upper-cased letters, 314 characters and a NUL, with
`sprintf` into `char buff[256]`: the call writes past the end of `buff`, and `main` has no
defined status instead of returning 10. (2) `prog WAIT IS_PRESSED EITHER` with 31 times
`BTN_A` before the unknown name `BTN_FOO`: before the loop reaches the unknown name it
has stored at index 30, outside the 30 slots of `buttons`. -/
theorem validation_overrun :
    (argv_long_mode[1]?).map strtoupper ∉ [some "CAPTURE".toList, some "WAIT".toList] ∧
    (parse_args initial_state argv_long_mode).buff
      = some ("invalid mode: ".toList ++ List.replicate 300 'X') ∧
    ((parse_args initial_state argv_long_mode).buff.map List.length) = some 314 ∧
    parse_overrun (parse_args initial_state argv_long_mode) = true ∧
    main argv_long_mode [snapshot_idle] = (none, 0) ∧
    main argv_long_mode [snapshot_idle] ≠ (some ExitCodeParseError, 0) ∧
    (∃ a4 t, argv_repeat_a_then_foo[4]? = some a4 ∧ t ∈ strtok_tokens (strtoupper a4) ∧
      t ∉ valid_buttons) ∧
    (parse_args initial_state argv_repeat_a_then_foo).stores = List.range 31 ∧
    parse_overrun (parse_args initial_state argv_repeat_a_then_foo) = true ∧
    main argv_repeat_a_then_foo [snapshot_idle] = (none, 0) := by
  refine ⟨?_, ?_, ?_, ?_, ?_, ?_, ?_, ?_, ?_, ?_⟩
  · decide
  · decide
  · decide
  · decide
  · decide
  · decide
  · exact ⟨_, "BTN_FOO".toList, rfl, by decide, by decide⟩
  · decide
  · decide
  · decide

/-! ## More on `parse_args`: the accepting path -/

/-- The result of `parse_args` once the mode, state and combination stages have passed. -/
theorem parse_args_of_stages (state : AppState) (argv : List CStr) (a1 a2 a3 : CStr)
    (m : ButtonMode) (s : ButtonState) (c : ButtonCombination)
    (h1 : (upcase_args argv)[1]? = some a1) (hm : parse_mode a1 = some m)
    (h2 : (upcase_args argv)[2]? = some a2) (hs : parse_state a2 = some s)
    (h3 : (upcase_args argv)[3]? = some a3) (hc : parse_combination a3 = some c) :
    parse_args state argv =
      match (upcase_args argv)[4]? with
      | none =>
        parse_args_finish
          { state with button :=
              { combination := c, state := s, mode := m, buttons := state.button.buttons } }
          (upcase_args argv) []
      | some a4 =>
        if (parse_buttons (strtok_tokens a4) 0 state.button.buttons).1 then
          parse_args_finish
            { state with button :=
                { combination := c, state := s, mode := m,
                  buttons := (parse_buttons (strtok_tokens a4) 0 state.button.buttons).2.1 } }
            ((upcase_args argv).set 4 (strtok_buffer a4))
            (parse_buttons (strtok_tokens a4) 0 state.button.buttons).2.2.1
        else
          { code := ExitCodeParseError,
            state := { state with button :=
                { combination := c, state := s, mode := m,
                  buttons := (parse_buttons (strtok_tokens a4) 0 state.button.buttons).2.1 } },
            argv := (upcase_args argv).set 4 (strtok_buffer a4),
            stores := (parse_buttons (strtok_tokens a4) 0 state.button.buttons).2.2.1,
            buff := (parse_buttons (strtok_tokens a4) 0 state.button.buttons).2.2.2 } := by
  unfold parse_args
  simp only [h1, hm, h2, hs, h3, hc]

theorem parse_error_ne_success : ExitCodeParseError ≠ ExitCodeSuccess := by decide

/-- The stages that a zero return code of `parse_args` has passed. -/
theorem parse_args_stages_of_code (state : AppState) (argv : List CStr)
    (h : (parse_args state argv).code = ExitCodeSuccess) :
    ∃ a1 a2 a3 m s c,
      (upcase_args argv)[1]? = some a1 ∧ parse_mode a1 = some m ∧
      (upcase_args argv)[2]? = some a2 ∧ parse_state a2 = some s ∧
      (upcase_args argv)[3]? = some a3 ∧ parse_combination a3 = some c ∧
      ∀ a4, (upcase_args argv)[4]? = some a4 →
        (parse_buttons (strtok_tokens a4) 0 state.button.buttons).1 = true := by
  unfold parse_args at h
  simp only [] at h
  split at h
  · exact absurd h parse_error_ne_success
  · rename_i a1 h1
    split at h
    · exact absurd h parse_error_ne_success
    · rename_i m hm
      split at h
      · exact absurd h parse_error_ne_success
      · rename_i a2 h2
        split at h
        · exact absurd h parse_error_ne_success
        · rename_i s hs
          split at h
          · exact absurd h parse_error_ne_success
          · rename_i a3 h3
            split at h
            · exact absurd h parse_error_ne_success
            · rename_i c hc
              refine ⟨a1, a2, a3, m, s, c, h1, hm, h2, hs, h3, hc, ?_⟩
              intro a4 h4
              rw [h4] at h
              simp only [] at h
              split at h
              · rename_i hr
                exact hr
              · exact absurd h parse_error_ne_success

/-- The frame of `parse_args`: `quitting` and `exit_code` are never written. -/
theorem parse_args_frame (state : AppState) (argv : List CStr) :
    (parse_args state argv).state.quitting = state.quitting ∧
    (parse_args state argv).state.exit_code = state.exit_code := by
  unfold parse_args
  simp only []
  repeat' split
  all_goals (first | exact ⟨rfl, rfl⟩ | (unfold parse_args_finish; split <;> exact ⟨rfl, rfl⟩))

theorem parse_args_finish_buff (state : AppState) (argv : List CStr) (stores : List Nat) :
    (parse_args_finish state argv stores).buff = none := by
  unfold parse_args_finish; split <;> rfl

/-- An accepting call of `parse_args` has formatted no message. -/
theorem parse_args_buff_of_success (state : AppState) (argv : List CStr)
    (h : (parse_args state argv).code = ExitCodeSuccess) :
    (parse_args state argv).buff = none := by
  obtain ⟨a1, a2, a3, m, s, c, h1, hm, h2, hs, h3, hc, h4⟩ :=
    parse_args_stages_of_code state argv h
  rw [parse_args_of_stages state argv a1 a2 a3 m s c h1 hm h2 hs h3 hc]
  cases h4e : (upcase_args argv)[4]? with
  | none => exact parse_args_finish_buff _ _ _
  | some a4 =>
    simp only []
    rw [if_pos (h4 a4 h4e)]
    exact parse_args_finish_buff _ _ _

/-- A call that stores nowhere and formats no message stays within its objects. -/
theorem parse_overrun_of_no_write (r : ParseResult) (hs : r.stores = []) (hb : r.buff = none) :
    parse_overrun r = false := by
  simp [parse_overrun, hs, hb]

theorem parse_mode_of_mem (a : Option CStr)
    (h : a ∈ [some "CAPTURE".toList, some "WAIT".toList]) :
    ∃ x m, a = some x ∧ parse_mode x = some m := by
  simp only [List.mem_cons, List.mem_singleton, List.not_mem_nil, or_false] at h
  rcases h with rfl | rfl
  · exact ⟨_, MODE_CAPTURE, rfl, by decide⟩
  · exact ⟨_, MODE_WAIT, rfl, by decide⟩

theorem parse_state_of_mem (a : Option CStr)
    (h : a ∈ [some "JUST_PRESSED".toList, some "IS_PRESSED".toList,
      some "JUST_RELEASED".toList, some "JUST_REPEATED".toList]) :
    ∃ x s, a = some x ∧ parse_state x = some s := by
  simp only [List.mem_cons, List.mem_singleton, List.not_mem_nil, or_false] at h
  rcases h with rfl | rfl | rfl | rfl
  · exact ⟨_, STATE_JUST_PRESSED, rfl, by decide⟩
  · exact ⟨_, STATE_IS_PRESSED, rfl, by decide⟩
  · exact ⟨_, STATE_JUST_RELEASED, rfl, by decide⟩
  · exact ⟨_, STATE_JUST_REPEATED, rfl, by decide⟩

theorem parse_args_finish_not_any (state : AppState) (argv : List CStr) (stores : List Nat)
    (h : state.button.combination ≠ BTN_COMBO_ANY) :
    parse_args_finish state argv stores
      = { code := ExitCodeSuccess, state := state, argv := argv, stores := stores,
          buff := none } := by
  simp [parse_args_finish, h]

/-- With combination ALL or EITHER and no button token, `parse_args` succeeds and writes
the mode, state and combination only. -/
theorem parse_args_no_buttons (state : AppState) (argv : List CStr)
    (hm : (argv[1]?).map strtoupper ∈ [some "CAPTURE".toList, some "WAIT".toList])
    (hs : (argv[2]?).map strtoupper ∈ [some "JUST_PRESSED".toList, some "IS_PRESSED".toList,
            some "JUST_RELEASED".toList, some "JUST_REPEATED".toList])
    (hc : (argv[3]?).map strtoupper ∈ [some "ALL".toList, some "EITHER".toList])
    (hb : ∀ a4, argv[4]? = some a4 → strtok_tokens (strtoupper a4) = []) :
    (parse_args state argv).code = ExitCodeSuccess ∧
    (parse_args state argv).state.button.buttons = state.button.buttons ∧
    (parse_args state argv).stores = [] := by
  obtain ⟨a1, m, h1, hm1⟩ := parse_mode_of_mem _ hm
  obtain ⟨a2, s, h2, hs1⟩ := parse_state_of_mem _ hs
  have hc1 : ∃ a3 c, (argv[3]?).map strtoupper = some a3 ∧ parse_combination a3 = some c ∧
      c ≠ BTN_COMBO_ANY := by
    simp only [List.mem_cons, List.mem_singleton, List.not_mem_nil, or_false] at hc
    rcases hc with h | h
    · exact ⟨_, BTN_COMBO_ALL, h, by decide, by decide⟩
    · exact ⟨_, BTN_COMBO_EITHER, h, by decide, by decide⟩
  obtain ⟨a3, c, h3, hc2, hne⟩ := hc1
  rw [← upcase_args_get argv 0] at h1
  rw [← upcase_args_get argv 1] at h2
  rw [← upcase_args_get argv 2] at h3
  rw [parse_args_of_stages state argv a1 a2 a3 m s c h1 hm1 h2 hs1 h3 hc2]
  rw [upcase_args_get argv 3]
  cases h4 : argv[4]? with
  | none =>
    simp only [Option.map_none']
    rw [parse_args_finish_not_any _ _ _ hne]
    exact ⟨rfl, rfl, rfl⟩
  | some a4 =>
    simp only [Option.map_some', hb a4 h4, parse_buttons, if_true]
    rw [parse_args_finish_not_any _ _ _ hne]
    exact ⟨rfl, rfl, rfl⟩

/-! ## C6: the buttons argument is not required -/

/-- C6, counterexample: `prog WAIT JUST_PRESSED ALL`, with no buttons argument, is not
rejected: `parse_args` returns 0 with combination ALL and all 30 slots `NULL`, and `main`
enters its loop (the empty ALL list matches on the first tick, exit status 0). The same
holds for `prog CAPTURE IS_PRESSED EITHER ,`, whose buttons argument yields no button:
there the loop runs one tick and ends with exit status 1. -/
theorem required_buttons_counterexample :
    (parse_args initial_state
        ["prog".toList, "WAIT".toList, "JUST_PRESSED".toList, "ALL".toList]).code
      = ExitCodeSuccess ∧
    (parse_args initial_state
        ["prog".toList, "WAIT".toList, "JUST_PRESSED".toList, "ALL".toList]).code
      ≠ ExitCodeParseError ∧
    (parse_args initial_state
        ["prog".toList, "WAIT".toList, "JUST_PRESSED".toList, "ALL".toList]).state.button
      = { combination := BTN_COMBO_ALL, state := STATE_JUST_PRESSED, mode := MODE_WAIT,
          buttons := List.replicate 30 none } ∧
    main ["prog".toList, "WAIT".toList, "JUST_PRESSED".toList, "ALL".toList] [snapshot_idle]
      = (some 0, 1) ∧
    (parse_args initial_state
        ["prog".toList, "CAPTURE".toList, "IS_PRESSED".toList, "EITHER".toList, ",".toList]).code
      = ExitCodeSuccess ∧
    main ["prog".toList, "CAPTURE".toList, "IS_PRESSED".toList, "EITHER".toList, ",".toList]
        [snapshot_idle]
      = (some 1, 1) := by
  refine ⟨?_, ?_, ?_, ?_, ?_, ?_⟩ <;> decide

/-- C6, amended: for every argument vector whose mode and state are valid, whose
combination is ALL or EITHER, and whose buttons argument is missing or yields no button,
`parse_args` returns 0 (not a configuration error), stores at no index and leaves the
`buttons` array as it found it, so that the button list `main` ends up with is empty
(all 30 slots `NULL`); `main` then enters its loop and executes at least the first tick. -/
theorem buttons_not_required (state : AppState) (argv : List CStr) (S : Snapshot)
    (rest : List Snapshot)
    (hm : (argv[1]?).map strtoupper ∈ [some "CAPTURE".toList, some "WAIT".toList])
    (hs : (argv[2]?).map strtoupper ∈ [some "JUST_PRESSED".toList, some "IS_PRESSED".toList,
            some "JUST_RELEASED".toList, some "JUST_REPEATED".toList])
    (hc : (argv[3]?).map strtoupper ∈ [some "ALL".toList, some "EITHER".toList])
    (hb : ∀ a4, argv[4]? = some a4 → strtok_tokens (strtoupper a4) = []) :
    (parse_args state argv).code = ExitCodeSuccess ∧
    (parse_args state argv).state.button.buttons = state.button.buttons ∧
    (parse_args state argv).stores = [] ∧
    (parse_args initial_state argv).state.button.buttons = List.replicate 30 none ∧
    1 ≤ (main argv (S :: rest)).2 := by
  obtain ⟨h1, h2, h3⟩ := parse_args_no_buttons state argv hm hs hc hb
  obtain ⟨i1, i2, _⟩ := parse_args_no_buttons initial_state argv hm hs hc hb
  refine ⟨h1, h2, h3, by rw [i2]; rfl, ?_⟩
  have hq : (parse_args initial_state argv).state.quitting = 0 :=
    (parse_args_frame initial_state argv).1
  have ho : parse_overrun (parse_args initial_state argv) = false :=
    parse_overrun_of_no_write _ (parse_args_no_buttons initial_state argv hm hs hc hb).2.2
      (parse_args_buff_of_success initial_state argv i1)
  simp [main, i1, ho, poll_loop, hq]

theorem buttons_not_required_witness :
    ((parse_args initial_state
        ["prog".toList, "wait".toList, "is_pressed".toList, "either".toList]).code
      = ExitCodeSuccess ∧
    (parse_args initial_state
        ["prog".toList, "wait".toList, "is_pressed".toList, "either".toList]).state.button.buttons
      = initial_state.button.buttons ∧
    (parse_args initial_state
        ["prog".toList, "wait".toList, "is_pressed".toList, "either".toList]).stores = [] ∧
    (parse_args initial_state
        ["prog".toList, "wait".toList, "is_pressed".toList, "either".toList]).state.button.buttons
      = List.replicate 30 none ∧
    1 ≤ (main ["prog".toList, "wait".toList, "is_pressed".toList, "either".toList]
          (snapshot_idle :: [snapshot_idle])).2) ∧
    main ["prog".toList, "wait".toList, "is_pressed".toList, "either".toList]
        [snapshot_idle, snapshot_idle] = (none, 2) :=
  ⟨buttons_not_required initial_state
      ["prog".toList, "wait".toList, "is_pressed".toList, "either".toList]
      snapshot_idle [snapshot_idle] (by decide) (by decide) (by decide) (by decide),
   by decide⟩

/-! ## Stores into the `buttons` array -/

theorem store_button_length (buttons : List (Option CStr)) (i : Nat) (p : CStr) :
    (store_button buttons i p).length = buttons.length := by
  unfold store_button; split <;> simp

theorem parse_buttons_length (toks : List CStr) (i : Nat) (buttons : List (Option CStr)) :
    (parse_buttons toks i buttons).2.1.length = buttons.length := by
  induction toks generalizing i buttons with
  | nil => rfl
  | cons tok rest ih =>
    unfold parse_buttons
    split
    · rfl
    · simp only [ih, store_button_length]

/-- Consecutive stores from index `pre.length` on overwrite the slots after `pre`. -/
theorem store_fold (vs : List CStr) :
    ∀ (pre rest : List (Option CStr)), pre.length + vs.length ≤ 30 → vs.length ≤ rest.length →
      (vs.enumFrom pre.length).foldl (fun b iv => store_button b iv.1 iv.2) (pre ++ rest)
        = pre ++ vs.map some ++ rest.drop vs.length := by
  induction vs with
  | nil => intro pre rest _ _; simp
  | cons v vs ih =>
    intro pre rest h1 h2
    cases rest with
    | nil => simp at h2
    | cons x rest =>
      have hst : store_button (pre ++ x :: rest) pre.length v = (pre ++ [some v]) ++ rest := by
        unfold store_button
        rw [if_pos (by simp at h1; omega), List.set_append_right _ _ (Nat.le_refl _)]
        simp
      have hlen : (pre ++ [some v]).length = pre.length + 1 := by simp
      have h := ih (pre ++ [some v]) rest (by simp at h1 ⊢; omega) (by simp at h2; omega)
      rw [hlen] at h
      simp only [List.enumFrom_cons, List.foldl_cons, hst, h]
      simp

theorem valid_buttons_length : valid_buttons.length = 30 := by decide

theorem store_valid_buttons_eq (buttons : List (Option CStr)) (h : buttons.length = 30) :
    store_valid_buttons buttons = valid_buttons.map some := by
  have hf := store_fold valid_buttons [] buttons (by simp [valid_buttons_length])
    (by rw [valid_buttons_length, h])
  have hd : buttons.drop valid_buttons.length = [] := by
    apply List.drop_eq_nil_of_le; rw [valid_buttons_length, h]
  unfold store_valid_buttons
  rw [List.enum]
  simpa [hd] using hf

/-- On valid tokens the `while` loop of `parse_args` is a run of stores at `i`, `i + 1`, ... -/
theorem parse_buttons_of_valid (toks : List CStr) (i : Nat) (buttons : List (Option CStr))
    (h : ∀ t ∈ toks, t ∈ valid_buttons) :
    parse_buttons toks i buttons
      = (true, (toks.enumFrom i).foldl (fun b iv => store_button b iv.1 iv.2) buttons,
          List.range' i toks.length, none) := by
  induction toks generalizing i buttons with
  | nil => rfl
  | cons tok rest ih =>
    have hv : is_valid_button (some tok) = true :=
      (is_valid_button_iff _).mpr (h tok (List.mem_cons_self _ _))
    have hr := ih (i + 1) (store_button buttons i tok) (fun t ht => h t (List.mem_cons_of_mem _ ht))
    simp [parse_buttons, hv, hr, List.enumFrom_cons, List.range'_succ]

theorem parse_args_finish_any (state : AppState) (argv : List CStr) (stores : List Nat)
    (hc : state.button.combination = BTN_COMBO_ANY) (hlen : state.button.buttons.length = 30) :
    (parse_args_finish state argv stores).state
      = { state with button :=
            { combination := BTN_COMBO_EITHER, state := state.button.state,
              mode := state.button.mode, buttons := valid_buttons.map some } } := by
  simp [parse_args_finish, hc, store_valid_buttons_eq _ hlen]

/-- The state that an accepted parse with combination ANY leaves behind. -/
theorem parse_args_any_state (state : AppState) (argv : List CStr)
    (hlen : state.button.buttons.length = 30)
    (hcode : (parse_args state argv).code = ExitCodeSuccess)
    (hany : (argv[3]?).map strtoupper = some "ANY".toList) :
    ∃ a1 a2 m s,
      (upcase_args argv)[1]? = some a1 ∧ parse_mode a1 = some m ∧
      (upcase_args argv)[2]? = some a2 ∧ parse_state a2 = some s ∧
      (parse_args state argv).state
        = { state with button :=
              { combination := BTN_COMBO_EITHER, state := s, mode := m,
                buttons := valid_buttons.map some } } := by
  obtain ⟨a1, a2, a3, m, s, c, h1, hm, h2, hs, h3, hc, h4⟩ :=
    parse_args_stages_of_code state argv hcode
  have ha3 : a3 = "ANY".toList := by
    rw [upcase_args_get argv 2, hany] at h3
    exact (Option.some.inj h3).symm
  have hcANY : c = BTN_COMBO_ANY := by
    rw [ha3] at hc
    exact (Option.some.inj hc).symm.trans (by decide)
  subst hcANY
  refine ⟨a1, a2, m, s, h1, hm, h2, hs, ?_⟩
  rw [parse_args_of_stages state argv a1 a2 a3 m s _ h1 hm h2 hs h3 hc]
  cases h4e : (upcase_args argv)[4]? with
  | none =>
    exact parse_args_finish_any _ _ _ rfl hlen
  | some a4 =>
    simp only []
    rw [if_pos (h4 a4 h4e)]
    exact parse_args_finish_any _ _ _ rfl ((parse_buttons_length _ _ _).trans hlen)

set_option maxRecDepth 100000 in
theorem strtok_tokens_catalog_argument : strtok_tokens catalog_argument = valid_buttons := by
  decide

set_option maxRecDepth 100000 in
theorem strtoupper_catalog_argument : strtoupper catalog_argument = catalog_argument := by
  decide

/-- Valid stages and valid tokens give return code 0. -/
theorem parse_args_code_of_valid (state : AppState) (argv : List CStr) (a1 a2 a3 : CStr)
    (m : ButtonMode) (s : ButtonState) (c : ButtonCombination)
    (h1 : (upcase_args argv)[1]? = some a1) (hm : parse_mode a1 = some m)
    (h2 : (upcase_args argv)[2]? = some a2) (hs : parse_state a2 = some s)
    (h3 : (upcase_args argv)[3]? = some a3) (hc : parse_combination a3 = some c)
    (h4 : ∀ a4, (upcase_args argv)[4]? = some a4 → ∀ t ∈ strtok_tokens a4, t ∈ valid_buttons) :
    (parse_args state argv).code = ExitCodeSuccess := by
  rw [parse_args_of_stages state argv a1 a2 a3 m s c h1 hm h2 hs h3 hc]
  cases h4e : (upcase_args argv)[4]? with
  | none => exact parse_args_finish_code _ _ _
  | some a4 =>
    simp only []
    rw [if_pos (parse_buttons_valid _ _ _ (h4 a4 h4e))]
    exact parse_args_finish_code _ _ _

/-- The state left by `<mode> <state> EITHER <the whole table>`. -/
theorem parse_args_either_catalog (state : AppState) (prog a1 a2 a3 : CStr)
    (m : ButtonMode) (s : ButtonState)
    (hlen : state.button.buttons.length = 30)
    (hm : parse_mode (strtoupper a1) = some m) (hs : parse_state (strtoupper a2) = some s)
    (hc : strtoupper a3 = "EITHER".toList) :
    (parse_args state [prog, a1, a2, a3, catalog_argument]).code = ExitCodeSuccess ∧
    (parse_args state [prog, a1, a2, a3, catalog_argument]).state
      = { state with button :=
            { combination := BTN_COMBO_EITHER, state := s, mode := m,
              buttons := valid_buttons.map some } } := by
  have hc2 : parse_combination (strtoupper a3) = some BTN_COMBO_EITHER := by rw [hc]; decide
  have hb := parse_buttons_of_valid valid_buttons 0 state.button.buttons (fun _ h => h)
  have hsv := store_valid_buttons_eq state.button.buttons hlen
  unfold store_valid_buttons at hsv
  rw [List.enum] at hsv
  rw [hsv] at hb
  rw [parse_args_of_stages state [prog, a1, a2, a3, catalog_argument] (strtoupper a1)
    (strtoupper a2) (strtoupper a3) m s BTN_COMBO_EITHER rfl hm rfl hs rfl hc2]
  have h4 : (upcase_args [prog, a1, a2, a3, catalog_argument])[4]? = some catalog_argument := by
    simp [upcase_args, strtoupper_catalog_argument]
  rw [h4]
  simp only [strtok_tokens_catalog_argument, hb, if_true]
  rw [parse_args_finish_not_any _ _ _ (show BTN_COMBO_EITHER ≠ BTN_COMBO_ANY by decide)]
  exact ⟨rfl, rfl⟩

theorem parse_mode_of_mem_list (x : CStr) (h : x ∈ ["CAPTURE".toList, "WAIT".toList]) :
    ∃ m, parse_mode x = some m := by
  obtain ⟨y, m, hy, hm⟩ := parse_mode_of_mem (some x) (by simpa using h)
  cases hy
  exact ⟨m, hm⟩

theorem parse_state_of_mem_list (x : CStr)
    (h : x ∈ ["JUST_PRESSED".toList, "IS_PRESSED".toList, "JUST_RELEASED".toList,
      "JUST_REPEATED".toList]) :
    ∃ s, parse_state x = some s := by
  obtain ⟨y, s, hy, hs⟩ := parse_state_of_mem (some x) (by simpa using h)
  cases hy
  exact ⟨s, hs⟩

/-! ## C7: the ANY expansion -/

/-- C7: for every valid mode and state (in any letter case), `parse_args` with combination
ANY, with no buttons argument or with a buttons argument of at most 30 valid names,
returns 0 and leaves the same state as `parse_args` with combination EITHER and the
buttons argument listing the whole table `valid_buttons` in table order: the stored
combination is EITHER (not ANY) and the button list is the table; hence `handle_input`
produces the same state from both on every snapshot. The `buttons` array handed in has
its 30 slots. -/
theorem any_expansion (state : AppState) (prog prog2 m s any either : CStr)
    (btns : Option CStr)
    (hlen : state.button.buttons.length = 30)
    (hm : strtoupper m ∈ ["CAPTURE".toList, "WAIT".toList])
    (hs : strtoupper s ∈ ["JUST_PRESSED".toList, "IS_PRESSED".toList,
      "JUST_RELEASED".toList, "JUST_REPEATED".toList])
    (hany : strtoupper any = "ANY".toList) (heither : strtoupper either = "EITHER".toList)
    (hb : ∀ a4, btns = some a4 →
      (strtok_tokens (strtoupper a4)).length ≤ 30 ∧
      ∀ t ∈ strtok_tokens (strtoupper a4), t ∈ valid_buttons) :
    (parse_args state ([prog, m, s, any] ++ btns.toList)).code = ExitCodeSuccess ∧
    (parse_args state [prog2, m, s, either, catalog_argument]).code = ExitCodeSuccess ∧
    (parse_args state ([prog, m, s, any] ++ btns.toList)).state
      = (parse_args state [prog2, m, s, either, catalog_argument]).state ∧
    (parse_args state ([prog, m, s, any] ++ btns.toList)).state.button.combination
      = BTN_COMBO_EITHER ∧
    (parse_args state ([prog, m, s, any] ++ btns.toList)).state.button.buttons
      = valid_buttons.map some ∧
    ∀ S : Snapshot,
      handle_input (parse_args state ([prog, m, s, any] ++ btns.toList)).state S
        = handle_input (parse_args state [prog2, m, s, either, catalog_argument]).state S := by
  obtain ⟨mm, hmm⟩ := parse_mode_of_mem_list _ hm
  obtain ⟨ss, hss⟩ := parse_state_of_mem_list _ hs
  obtain ⟨hE1, hE2⟩ := parse_args_either_catalog state prog2 m s either mm ss hlen hmm hss heither
  have hcA : parse_combination (strtoupper any) = some BTN_COMBO_ANY := by rw [hany]; decide
  have h4 : ∀ a4, (upcase_args ([prog, m, s, any] ++ btns.toList))[4]? = some a4 →
      ∀ t ∈ strtok_tokens a4, t ∈ valid_buttons := by
    intro a4 h
    cases btns with
    | none => simp [upcase_args] at h
    | some b =>
      have hb4 : a4 = strtoupper b := by
        simpa [upcase_args, eq_comm] using h
      rw [hb4]
      exact (hb b rfl).2
  have u1 : (upcase_args ([prog, m, s, any] ++ btns.toList))[1]? = some (strtoupper m) := by
    simp [upcase_args]
  have u2 : (upcase_args ([prog, m, s, any] ++ btns.toList))[2]? = some (strtoupper s) := by
    simp [upcase_args]
  have u3 : (upcase_args ([prog, m, s, any] ++ btns.toList))[3]? = some (strtoupper any) := by
    simp [upcase_args]
  have hA1 : (parse_args state ([prog, m, s, any] ++ btns.toList)).code = ExitCodeSuccess :=
    parse_args_code_of_valid state _ (strtoupper m) (strtoupper s) (strtoupper any) mm ss
      BTN_COMBO_ANY u1 hmm u2 hss u3 hcA h4
  obtain ⟨a1, a2, m2, s2, g1, gm, g2, gs, hA2⟩ :=
    parse_args_any_state state ([prog, m, s, any] ++ btns.toList) hlen hA1
      (by simp [hany])
  have e1 : a1 = strtoupper m := by
    rw [u1] at g1; exact (Option.some.inj g1).symm
  have e2 : a2 = strtoupper s := by
    rw [u2] at g2; exact (Option.some.inj g2).symm
  have em : m2 = mm := by rw [e1, hmm] at gm; exact (Option.some.inj gm).symm
  have es : s2 = ss := by rw [e2, hss] at gs; exact (Option.some.inj gs).symm
  subst em es
  have hst : (parse_args state ([prog, m, s, any] ++ btns.toList)).state
      = (parse_args state [prog2, m, s, either, catalog_argument]).state := by
    rw [hA2, hE2]
  refine ⟨hA1, hE1, hst, ?_, ?_, fun S => by rw [hst]⟩
  · rw [hA2]
  · rw [hA2]

theorem any_expansion_witness :
    (parse_args initial_state
        (["prog".toList, "wait".toList, "is_pressed".toList, "any".toList]
          ++ (some "btn_x,btn_y".toList).toList)).code = ExitCodeSuccess ∧
    (parse_args initial_state
        ["prog".toList, "wait".toList, "is_pressed".toList, "either".toList,
          catalog_argument]).code = ExitCodeSuccess ∧
    (parse_args initial_state
        (["prog".toList, "wait".toList, "is_pressed".toList, "any".toList]
          ++ (some "btn_x,btn_y".toList).toList)).state
      = (parse_args initial_state
          ["prog".toList, "wait".toList, "is_pressed".toList, "either".toList,
            catalog_argument]).state ∧
    (parse_args initial_state
        (["prog".toList, "wait".toList, "is_pressed".toList, "any".toList]
          ++ (some "btn_x,btn_y".toList).toList)).state.button.combination
      = BTN_COMBO_EITHER ∧
    (parse_args initial_state
        (["prog".toList, "wait".toList, "is_pressed".toList, "any".toList]
          ++ (some "btn_x,btn_y".toList).toList)).state.button.buttons
      = valid_buttons.map some ∧
    ∀ S : Snapshot,
      handle_input (parse_args initial_state
          (["prog".toList, "wait".toList, "is_pressed".toList, "any".toList]
            ++ (some "btn_x,btn_y".toList).toList)).state S
        = handle_input (parse_args initial_state
            ["prog".toList, "wait".toList, "is_pressed".toList, "either".toList,
              catalog_argument]).state S :=
  any_expansion initial_state "prog".toList "prog".toList "wait".toList "is_pressed".toList
    "any".toList "either".toList (some "btn_x,btn_y".toList)
    (by decide) (by decide) (by decide) (by decide) (by decide)
    (by
      intro a4 h
      cases h
      exact ⟨by decide, by decide⟩)

/-! ## C8: the list installed for ANY -/

/-- C8, counterexample: after `prog WAIT IS_PRESSED ANY` the button list has 30 entries,
not 29, none of them `NULL`, and its entry 17 is the "none" sentinel `BTN_NONE`. -/
theorem any_catalog_counterexample :
    (parse_args initial_state
        ["prog".toList, "WAIT".toList, "IS_PRESSED".toList, "ANY".toList]).code
      = ExitCodeSuccess ∧
    ((parse_args initial_state
        ["prog".toList, "WAIT".toList, "IS_PRESSED".toList, "ANY".toList]).state.button.buttons.filter
        Option.isSome).length = 30 ∧
    some "BTN_NONE".toList ∈
      (parse_args initial_state
        ["prog".toList, "WAIT".toList, "IS_PRESSED".toList, "ANY".toList]).state.button.buttons ∧
    (parse_args initial_state
        ["prog".toList, "WAIT".toList, "IS_PRESSED".toList, "ANY".toList]).state.button.buttons[17]?
      = some (some "BTN_NONE".toList) := by
  refine ⟨?_, ?_, ?_, ?_⟩ <;> decide

/-- C8, amended: whenever `parse_args` accepts an argument vector whose combination is ANY
(the `buttons` array handed in having its 30 slots), the button list it installs is the
whole table `valid_buttons`, in table order: 30 pairwise distinct entries, namely the
"none" sentinel `BTN_NONE` at index 17 and 29 other names; the stored combination is
EITHER. -/
theorem any_installs_valid_buttons (state : AppState) (argv : List CStr)
    (hlen : state.button.buttons.length = 30)
    (hcode : (parse_args state argv).code = ExitCodeSuccess)
    (hany : (argv[3]?).map strtoupper = some "ANY".toList) :
    (parse_args state argv).state.button.buttons = valid_buttons.map some ∧
    (parse_args state argv).state.button.combination = BTN_COMBO_EITHER ∧
    valid_buttons.length = 30 ∧
    valid_buttons.Nodup ∧
    valid_buttons[17]? = some "BTN_NONE".toList ∧
    (valid_buttons.filter (fun b => decide (b ≠ "BTN_NONE".toList))).length = 29 := by
  obtain ⟨a1, a2, m, s, _, _, _, _, hst⟩ := parse_args_any_state state argv hlen hcode hany
  refine ⟨by rw [hst], by rw [hst], by decide, by decide, by decide, by decide⟩

theorem any_installs_valid_buttons_witness :
    (parse_args initial_state
        ["prog".toList, "capture".toList, "just_released".toList, "any".toList,
          "btn_a".toList]).state.button.buttons = valid_buttons.map some ∧
    (parse_args initial_state
        ["prog".toList, "capture".toList, "just_released".toList, "any".toList,
          "btn_a".toList]).state.button.combination = BTN_COMBO_EITHER ∧
    valid_buttons.length = 30 ∧
    valid_buttons.Nodup ∧
    valid_buttons[17]? = some "BTN_NONE".toList ∧
    (valid_buttons.filter (fun b => decide (b ≠ "BTN_NONE".toList))).length = 29 :=
  any_installs_valid_buttons initial_state
    ["prog".toList, "capture".toList, "just_released".toList, "any".toList, "btn_a".toList]
    (by decide) (by decide) (by decide)

/-! ## Upper-casing -/

theorem toupper_idem (c : Char) : toupper (toupper c) = toupper c := by
  unfold toupper
  by_cases h : 97 ≤ c.toNat ∧ c.toNat ≤ 122
  · rw [if_pos h]
    obtain ⟨h1, h2⟩ := h
    generalize c.toNat = n at h1 h2
    interval_cases n <;> decide
  · rw [if_neg h, if_neg h]

theorem strtoupper_idem (str : CStr) : strtoupper (strtoupper str) = strtoupper str := by
  unfold strtoupper
  rw [List.map_map]
  apply List.map_congr_left
  intro c _
  exact toupper_idem c

theorem upcase_args_idem (argv : List CStr) : upcase_args (upcase_args argv) = upcase_args argv := by
  cases argv with
  | nil => rfl
  | cons prog rest =>
    simp only [upcase_args, List.map_map, List.cons.injEq, true_and]
    apply List.map_congr_left
    intro a _
    exact strtoupper_idem a

/-- Everything but the `argv` member of the result of `parse_args` is determined by the
upper-cased arguments after the program name. -/
theorem parse_args_tail (state : AppState) (prog prog2 : CStr) (rest rest2 : List CStr)
    (h : rest.map strtoupper = rest2.map strtoupper) :
    (parse_args state (prog :: rest)).code = (parse_args state (prog2 :: rest2)).code ∧
    (parse_args state (prog :: rest)).state = (parse_args state (prog2 :: rest2)).state ∧
    (parse_args state (prog :: rest)).stores = (parse_args state (prog2 :: rest2)).stores := by
  unfold parse_args
  simp only [upcase_args, List.getElem?_cons_succ, h]
  repeat' split
  all_goals first
    | exact ⟨rfl, rfl, rfl⟩
    | (unfold parse_args_finish; split <;> exact ⟨rfl, rfl, rfl⟩)

/-- The arguments are read through their upper-cased form only. -/
theorem parse_args_upcase_args (state : AppState) (argv : List CStr) :
    parse_args state argv = parse_args state (upcase_args argv) := by
  unfold parse_args
  simp only [upcase_args_idem]

/-! ## C9: case-insensitivity -/

/-- C9: for every argument vector, `parse_args` gives the same result (return code, state
written, argument strings left behind, indices stored at) as on the vector obtained by
upper-casing every argument after the program name; and two vectors whose arguments after
the program name have the same upper-cased form give the same return code, mode, state,
combination and button list. So `wait just_pressed either btn_a,btn_b` is accepted exactly
like its upper-case spelling. -/
theorem case_insensitivity (state : AppState) (argv : List CStr) :
    parse_args state argv = parse_args state (upcase_args argv) ∧
    (∀ argv2 : List CStr, argv.tail.map strtoupper = argv2.tail.map strtoupper →
      (parse_args state argv).code = (parse_args state argv2).code ∧
      (parse_args state argv).state = (parse_args state argv2).state ∧
      (parse_args state argv).stores = (parse_args state argv2).stores) ∧
    parse_args state
        ["prog".toList, "wait".toList, "just_pressed".toList, "either".toList,
          "btn_a,btn_b".toList]
      = parse_args state
        ["prog".toList, "WAIT".toList, "JUST_PRESSED".toList, "EITHER".toList,
          "BTN_A,BTN_B".toList] := by
  have key : ∀ a : List CStr, parse_args state a = parse_args state (upcase_args a) :=
    parse_args_upcase_args state
  refine ⟨key argv, ?_, ?_⟩
  · intro argv2 h
    cases argv with
    | nil =>
      cases argv2 with
      | nil => exact ⟨rfl, rfl, rfl⟩
      | cons p r =>
        have hr : r = [] := by simpa using h.symm
        subst hr
        exact ⟨rfl, rfl, rfl⟩
    | cons p r =>
      cases argv2 with
      | nil =>
        have hr : r = [] := by simpa using h
        subst hr
        exact ⟨rfl, rfl, rfl⟩
      | cons p2 r2 => exact parse_args_tail state p p2 r r2 h
  · rw [key ["prog".toList, "wait".toList, "just_pressed".toList, "either".toList,
      "btn_a,btn_b".toList]]
    have hu : upcase_args ["prog".toList, "wait".toList, "just_pressed".toList,
        "either".toList, "btn_a,btn_b".toList]
        = ["prog".toList, "WAIT".toList, "JUST_PRESSED".toList, "EITHER".toList,
          "BTN_A,BTN_B".toList] := by decide
    rw [hu]

theorem case_insensitivity_witness :
    (parse_args initial_state
        ["prog".toList, "Wait".toList, "Just_Pressed".toList, "Either".toList,
          "Btn_A,btn_B".toList]).code = ExitCodeSuccess ∧
    (parse_args initial_state
        ["prog".toList, "Wait".toList, "Just_Pressed".toList, "Either".toList,
          "Btn_A,btn_B".toList]).state
      = (parse_args initial_state
        ["other".toList, "wAIT".toList, "JUST_pressed".toList, "eITHER".toList,
          "BTN_a,BTN_b".toList]).state :=
  ⟨by decide,
   ((case_insensitivity initial_state
      ["prog".toList, "Wait".toList, "Just_Pressed".toList, "Either".toList,
        "Btn_A,btn_B".toList]).2.1
      ["other".toList, "wAIT".toList, "JUST_pressed".toList, "eITHER".toList,
        "BTN_a,BTN_b".toList] (by decide)).2.1⟩

/-! ## `strtok`: the scan and the single call -/

theorem strtok_scan_skip (s : CStr) :
    strtok_scan [] s = strtok_scan [] (s.dropWhile (fun c => c == ',')) := by
  induction s with
  | nil => rfl
  | cons c cs ih =>
    by_cases hc : c = ','
    · subst hc
      simp only [strtok_scan, if_true, List.dropWhile_cons, beq_self_eq_true]
      exact ih
    · have hb : (c == ',') = false := by simpa using hc
      simp only [List.dropWhile_cons, hb]
      rfl

theorem strtok_scan_token (s : CStr) :
    ∀ cur : CStr, cur ++ s.takeWhile (fun c => c != ',') ≠ [] →
      strtok_scan cur s
        = (cur ++ s.takeWhile (fun c => c != ',')) ::
            strtok_scan [] ((s.dropWhile (fun c => c != ',')).drop 1) := by
  induction s with
  | nil =>
    intro cur h
    have hcur : cur ≠ [] := by simpa using h
    simp [strtok_scan, hcur]
  | cons c cs ih =>
    intro cur h
    by_cases hc : c = ','
    · subst hc
      have hcur : cur ≠ [] := by simpa using h
      simp [strtok_scan, hcur]
    · have hb : (c != ',') = true := by simpa using hc
      have h2 := ih (cur ++ [c]) (by simp)
      simp only [strtok_scan, if_neg hc, List.takeWhile_cons, hb, List.dropWhile_cons, if_true]
      rw [h2]
      simp

/-- The scan `strtok_tokens` is the iteration of the single call `strtok`: no token when
the call returns `NULL`, else the token followed by the tokens of what is left. -/
theorem strtok_tokens_unfold (s : CStr) :
    strtok_tokens s =
      match strtok s with
      | none => []
      | some (t, r) => t :: strtok_tokens r := by
  unfold strtok_tokens strtok
  rw [strtok_scan_skip s]
  cases hs : s.dropWhile (fun c => c == ',') with
  | nil => rfl
  | cons d ds =>
    have hd : (d == ',') = false := by
      have := List.head_dropWhile_not (fun c => c == ',') s
        (by rw [hs]; exact List.cons_ne_nil _ _)
      simpa [hs] using this
    have hdn : d ≠ ',' := by simpa using hd
    have hne : ([] : CStr) ++ (d :: ds).takeWhile (fun c => c != ',') ≠ [] := by
      simp [List.takeWhile_cons, hdn]
    rw [strtok_scan_token (d :: ds) [] hne]
    simp

theorem dropWhile_of_all_false (p : Char → Bool) (l : CStr) (h : ∀ x ∈ l, p x = false) :
    l.dropWhile p = l := by
  cases l with
  | nil => rfl
  | cons a t => simp [List.dropWhile_cons, h a (List.mem_cons_self _ _)]

/-- What `strtok` returns on the buffer it has already cut: the same first token, and
nothing after it. -/
theorem strtok_strtok_buffer (s : CStr) :
    strtok (strtok_buffer s) = (strtok s).map (fun tr => (tr.1, [])) := by
  have hX : ∀ x ∈ (s.dropWhile (fun c => c == ',')).takeWhile (fun c => c != ','),
      (x != ',') = true :=
    fun x hx => @List.mem_takeWhile_imp _ (fun c => c != ',') _ x hx
  have hXc : ∀ x ∈ (s.dropWhile (fun c => c == ',')).takeWhile (fun c => c != ','),
      (x == ',') = false := by
    intro x hx
    have := hX x hx
    simpa using this
  have hdrop : (strtok_buffer s).dropWhile (fun c => c == ',')
      = (s.dropWhile (fun c => c == ',')).takeWhile (fun c => c != ',') := by
    unfold strtok_buffer
    rw [List.dropWhile_append]
    have h0 : (s.takeWhile (fun c => c == ',')).dropWhile (fun c => c == ',') = [] :=
      List.dropWhile_eq_nil_iff.mpr
        (fun x hx => @List.mem_takeWhile_imp _ (fun c => c == ',') _ x hx)
    rw [h0]
    simp only [List.isEmpty_nil, if_true]
    exact dropWhile_of_all_false _ _ hXc
  unfold strtok
  simp only [hdrop]
  cases hs : s.dropWhile (fun c => c == ',') with
  | nil => simp
  | cons d ds =>
    have hd : (d == ',') = false := by
      have := List.head_dropWhile_not (fun c => c == ',') s
        (by rw [hs]; exact List.cons_ne_nil _ _)
      simpa [hs] using this
    have hdn : d ≠ ',' := by simpa using hd
    have hne : (d :: ds).takeWhile (fun c => c != ',') ≠ [] := by
      simp [List.takeWhile_cons, hdn]
    rw [hs] at hX
    have htw : ((d :: ds).takeWhile (fun c => c != ',')).takeWhile (fun c => c != ',')
        = (d :: ds).takeWhile (fun c => c != ',') := List.takeWhile_eq_self_iff.mpr hX
    have hdw : ((d :: ds).takeWhile (fun c => c != ',')).dropWhile (fun c => c != ',') = [] :=
      List.dropWhile_eq_nil_iff.mpr hX
    rw [if_neg hne, if_neg (List.cons_ne_nil _ _), htw, hdw]
    rfl

theorem strtok_tokens_nil : strtok_tokens [] = [] := rfl

/-- Parsed again, the buffer that `strtok` has cut yields its first token only. -/
theorem strtok_tokens_strtok_buffer (s : CStr) :
    strtok_tokens (strtok_buffer s) = (strtok_tokens s).take 1 := by
  rw [strtok_tokens_unfold (strtok_buffer s), strtok_tokens_unfold s, strtok_strtok_buffer]
  cases strtok s with
  | none => rfl
  | some tr => simp [strtok_tokens_nil]

theorem strtoupper_eq_self_iff (a : CStr) : strtoupper a = a ↔ ∀ c ∈ a, toupper c = c := by
  unfold strtoupper
  constructor
  · intro h c hc
    induction a with
    | nil => simp at hc
    | cons x xs ih =>
      simp only [List.map_cons, List.cons.injEq] at h
      rcases List.mem_cons.mp hc with rfl | hm
      · exact h.1
      · exact ih h.2 hm
  · intro h
    induction a with
    | nil => rfl
    | cons x xs ih =>
      simp only [List.map_cons, List.cons.injEq]
      exact ⟨h x (List.mem_cons_self _ _), ih (fun c hc => h c (List.mem_cons_of_mem _ hc))⟩

/-- Upper-casing leaves the cut buffer of an upper-cased string alone. -/
theorem strtoupper_strtok_buffer (a : CStr) (h : strtoupper a = a) :
    strtoupper (strtok_buffer a) = strtok_buffer a := by
  rw [strtoupper_eq_self_iff] at h ⊢
  intro c hc
  apply h
  unfold strtok_buffer at hc
  rcases List.mem_append.mp hc with hc | hc
  · exact (List.takeWhile_sublist _).subset hc
  · exact (List.dropWhile_sublist _).subset ((List.takeWhile_sublist _).subset hc)

/-! ## Parsing the arguments a second time -/

theorem parse_buttons_valid_of_true (toks : List CStr) (i : Nat) (buttons : List (Option CStr))
    (h : (parse_buttons toks i buttons).1 = true) : ∀ t ∈ toks, t ∈ valid_buttons := by
  intro t ht
  by_contra hn
  rw [parse_buttons_invalid toks i buttons ⟨t, ht, hn⟩] at h
  exact Bool.false_ne_true h

/-- A write to slot 0 commutes with the stores of the loop from index 1 on. -/
theorem set_zero_parse_buttons (toks : List CStr) (v : Option CStr) :
    ∀ (i : Nat) (buttons : List (Option CStr)), 1 ≤ i →
      ((parse_buttons toks i buttons).2.1).set 0 v
        = (parse_buttons toks i (buttons.set 0 v)).2.1 := by
  induction toks with
  | nil => intro i buttons _; rfl
  | cons tok rest ih =>
    intro i buttons hi
    by_cases hv : is_valid_button (some tok) = true
    · have hcomm : (store_button buttons i tok).set 0 v = store_button (buttons.set 0 v) i tok := by
        unfold store_button
        by_cases h30 : i < 30
        · rw [if_pos h30, if_pos h30]
          exact List.set_comm _ _ _ (by omega)
        · rw [if_neg h30, if_neg h30]
      simp only [parse_buttons, hv, Bool.not_true, Bool.false_eq_true, if_false]
      rw [ih (i + 1) (store_button buttons i tok) (by omega), hcomm]
    · simp [parse_buttons, hv]

/-- Storing the first token again at index 0, after the loop, changes nothing. -/
theorem parse_buttons_take_one (toks : List CStr) (buttons : List (Option CStr))
    (h : ∀ t ∈ toks, t ∈ valid_buttons) :
    (parse_buttons (toks.take 1) 0 (parse_buttons toks 0 buttons).2.1).1 = true ∧
    (parse_buttons (toks.take 1) 0 (parse_buttons toks 0 buttons).2.1).2.1
      = (parse_buttons toks 0 buttons).2.1 := by
  cases toks with
  | nil => exact ⟨rfl, rfl⟩
  | cons tok rest =>
    have hv : is_valid_button (some tok) = true :=
      (is_valid_button_iff _).mpr (h tok (List.mem_cons_self _ _))
    have h0 : store_button buttons 0 tok = buttons.set 0 (some tok) := by
      simp [store_button]
    have hB : (parse_buttons (tok :: rest) 0 buttons).2.1
        = (parse_buttons rest 1 (buttons.set 0 (some tok))).2.1 := by
      simp [parse_buttons, hv, h0]
    have hfix : ((parse_buttons rest 1 (buttons.set 0 (some tok))).2.1).set 0 (some tok)
        = (parse_buttons rest 1 (buttons.set 0 (some tok))).2.1 := by
      rw [set_zero_parse_buttons rest (some tok) 1 _ (Nat.le_refl 1), List.set_set]
    rw [hB]
    simp [parse_buttons, hv, store_button, hfix]

theorem parse_args_finish_argv (state : AppState) (argv : List CStr) (stores : List Nat) :
    (parse_args_finish state argv stores).argv = argv := by
  unfold parse_args_finish; split <;> rfl

theorem upcase_args_set (l : List CStr) (i : Nat) (b : CStr) (hi : 1 ≤ i) :
    upcase_args (l.set i b) = (upcase_args l).set i (strtoupper b) := by
  cases l with
  | nil => rfl
  | cons p rest =>
    obtain ⟨j, rfl⟩ : ∃ j, i = j + 1 := ⟨i - 1, by omega⟩
    simp [upcase_args, List.map_set]

/-- The end of `parse_args`, run on the state that the end of `parse_args` has produced
from the same combination, state and mode, gives that state again. -/
theorem parse_args_finish_again (state : AppState) (c : ButtonCombination) (s : ButtonState)
    (m : ButtonMode) (B B2 : List (Option CStr)) (av av2 : List CStr) (st st2 : List Nat)
    (hB : B.length = 30)
    (hANY : c = BTN_COMBO_ANY → B2.length = 30) (hnot : c ≠ BTN_COMBO_ANY → B2 = B) :
    (parse_args_finish
        { (parse_args_finish
            { state with button := { combination := c, state := s, mode := m, buttons := B } }
            av st).state with
          button := { combination := c, state := s, mode := m, buttons := B2 } }
        av2 st2).state
      = (parse_args_finish
          { state with button := { combination := c, state := s, mode := m, buttons := B } }
          av st).state := by
  by_cases hc : c = BTN_COMBO_ANY
  · subst hc
    rw [parse_args_finish_any _ av st rfl hB]
    exact parse_args_finish_any _ av2 st2 rfl (hANY rfl)
  · have e1 : (parse_args_finish
        { state with button := { combination := c, state := s, mode := m, buttons := B } }
        av st).state
        = { state with button := { combination := c, state := s, mode := m, buttons := B } } := by
      rw [parse_args_finish_not_any _ av st hc]
    rw [e1, hnot hc]
    rw [parse_args_finish_not_any _ av2 st2 hc]

theorem parse_args_finish_buttons (state : AppState) (av : List CStr) (st : List Nat)
    (hB : state.button.buttons.length = 30) :
    (state.button.combination = BTN_COMBO_ANY →
      (parse_args_finish state av st).state.button.buttons.length = 30) ∧
    (state.button.combination ≠ BTN_COMBO_ANY →
      (parse_args_finish state av st).state.button.buttons = state.button.buttons) := by
  constructor
  · intro hc
    rw [parse_args_finish_any state av st hc hB]
    simp [valid_buttons_length]
  · intro hc
    rw [parse_args_finish_not_any state av st hc]

/-- Running `parse_args` a second time on the state and the argument strings that a first,
accepted run has left behind is accepted too and changes nothing in the state. -/
theorem parse_args_again (state : AppState) (argv : List CStr)
    (hlen : state.button.buttons.length = 30)
    (hcode : (parse_args state argv).code = ExitCodeSuccess) :
    (parse_args (parse_args state argv).state (parse_args state argv).argv).code
      = ExitCodeSuccess ∧
    (parse_args (parse_args state argv).state (parse_args state argv).argv).state
      = (parse_args state argv).state := by
  obtain ⟨a1, a2, a3, m, s, c, h1, hm, h2, hs, h3, hc, h4⟩ :=
    parse_args_stages_of_code state argv hcode
  have hU := upcase_args_idem argv
  rw [parse_args_of_stages state argv a1 a2 a3 m s c h1 hm h2 hs h3 hc]
  cases h4e : (upcase_args argv)[4]? with
  | none =>
    simp only [parse_args_finish_argv]
    have g1 : (upcase_args (upcase_args argv))[1]? = some a1 := by rw [hU]; exact h1
    have g2 : (upcase_args (upcase_args argv))[2]? = some a2 := by rw [hU]; exact h2
    have g3 : (upcase_args (upcase_args argv))[3]? = some a3 := by rw [hU]; exact h3
    have g4 : (upcase_args (upcase_args argv))[4]? = none := by rw [hU]; exact h4e
    rw [parse_args_of_stages _ (upcase_args argv) a1 a2 a3 m s c g1 hm g2 hs g3 hc, g4]
    refine ⟨parse_args_finish_code _ _ _, ?_⟩
    have hb := parse_args_finish_buttons
      { state with button :=
          { combination := c, state := s, mode := m, buttons := state.button.buttons } }
      (upcase_args argv) [] hlen
    exact parse_args_finish_again state c s m state.button.buttons _ _ _ _ _ hlen hb.1 hb.2
  | some a4 =>
    have hv := h4 a4 h4e
    have hvalid := parse_buttons_valid_of_true _ _ _ hv
    have hBlen : (parse_buttons (strtok_tokens a4) 0 state.button.buttons).2.1.length = 30 :=
      (parse_buttons_length _ _ _).trans hlen
    simp only []
    rw [if_pos hv]
    simp only [parse_args_finish_argv]
    have ha4 : strtoupper a4 = a4 := by
      have h := h4e
      rw [upcase_args_get argv 3] at h
      cases hx : argv[3 + 1]? with
      | none => rw [hx] at h; exact Option.noConfusion h
      | some x =>
        rw [hx] at h
        have hxa : strtoupper x = a4 := Option.some.inj h
        rw [← hxa, strtoupper_idem]
    have hUset : upcase_args ((upcase_args argv).set 4 (strtok_buffer a4))
        = (upcase_args argv).set 4 (strtok_buffer a4) := by
      rw [upcase_args_set _ 4 _ (by omega), hU, strtoupper_strtok_buffer a4 ha4]
    have hl4 : 4 < (upcase_args argv).length := by
      by_contra hge
      have hnone : (upcase_args argv)[4]? = none := List.getElem?_eq_none (by omega)
      rw [hnone] at h4e
      exact Option.noConfusion h4e
    have g1 : (upcase_args ((upcase_args argv).set 4 (strtok_buffer a4)))[1]? = some a1 := by
      rw [hUset, List.getElem?_set_ne (by omega)]; exact h1
    have g2 : (upcase_args ((upcase_args argv).set 4 (strtok_buffer a4)))[2]? = some a2 := by
      rw [hUset, List.getElem?_set_ne (by omega)]; exact h2
    have g3 : (upcase_args ((upcase_args argv).set 4 (strtok_buffer a4)))[3]? = some a3 := by
      rw [hUset, List.getElem?_set_ne (by omega)]; exact h3
    have g4 : (upcase_args ((upcase_args argv).set 4 (strtok_buffer a4)))[4]?
        = some (strtok_buffer a4) := by
      rw [hUset, List.getElem?_set_self hl4]
    rw [parse_args_of_stages _ ((upcase_args argv).set 4 (strtok_buffer a4)) a1 a2 a3 m s c
      g1 hm g2 hs g3 hc, g4]
    simp only [strtok_tokens_strtok_buffer]
    have hvalid1 : ∀ t ∈ (strtok_tokens a4).take 1, t ∈ valid_buttons :=
      fun t ht => hvalid t (List.mem_of_mem_take ht)
    rw [if_pos (parse_buttons_valid _ _ _ hvalid1)]
    refine ⟨parse_args_finish_code _ _ _, ?_⟩
    have hb := parse_args_finish_buttons
      { state with button :=
          { combination := c, state := s, mode := m,
            buttons := (parse_buttons (strtok_tokens a4) 0 state.button.buttons).2.1 } }
      ((upcase_args argv).set 4 (strtok_buffer a4))
      (parse_buttons (strtok_tokens a4) 0 state.button.buttons).2.2.1 hBlen
    apply parse_args_finish_again state c s m _ _ _ _ _ _ hBlen
    · intro hcA
      rw [parse_buttons_length]
      exact hb.1 hcA
    · intro hcN
      rw [hb.2 hcN]
      exact (parse_buttons_take_one _ _ hvalid).2

/-! ## C10: parsing twice -/

/-- C10, counterexample: `prog WAIT JUST_PRESSED ALL BTN_A,BTN_B` is accepted and is already
upper-case, but `parse_args` leaves its last argument behind as `BTN_A` (`strtok` has
overwritten the comma), so that parsing the arguments again, into a fresh state, is
accepted with the button list `BTN_A` alone instead of `BTN_A`, `BTN_B`. -/
theorem idempotent_parse_counterexample :
    (parse_args initial_state (argv_ab "WAIT" "ALL")).code = ExitCodeSuccess ∧
    upcase_args (argv_ab "WAIT" "ALL") = argv_ab "WAIT" "ALL" ∧
    (parse_args initial_state (argv_ab "WAIT" "ALL")).argv
      = ["prog".toList, "WAIT".toList, "JUST_PRESSED".toList, "ALL".toList, "BTN_A".toList] ∧
    (parse_args initial_state (parse_args initial_state (argv_ab "WAIT" "ALL")).argv).code
      = ExitCodeSuccess ∧
    (parse_args initial_state (argv_ab "WAIT" "ALL")).state.button.buttons
      = button_slots ["BTN_A".toList, "BTN_B".toList] ∧
    (parse_args initial_state
        (parse_args initial_state (argv_ab "WAIT" "ALL")).argv).state.button.buttons
      = button_slots ["BTN_A".toList] ∧
    (parse_args initial_state (parse_args initial_state (argv_ab "WAIT" "ALL")).argv).state.button
      ≠ (parse_args initial_state (argv_ab "WAIT" "ALL")).state.button := by
  refine ⟨?_, ?_, ?_, ?_, ?_, ?_, ?_⟩ <;> decide

/-- C10, amended: for every argument vector that `parse_args` accepts (the `buttons` array
handed in having its 30 slots), (1) parsing its upper-cased arguments, as they are before
`strtok` cuts the buttons argument, from the same starting state is accepted and yields the
identical state, hence the same mode, state, combination and ordered button list; (2)
calling `parse_args` again on the arguments as the first call left them (upper-cased and
tokenised in place) and on the state the first call wrote is accepted and leaves that
state identical; (3) `strtoupper (strtoupper s) = strtoupper s` for every string `s`. -/
theorem idempotent_parse (state : AppState) (argv : List CStr)
    (hlen : state.button.buttons.length = 30)
    (hcode : (parse_args state argv).code = ExitCodeSuccess) :
    ((parse_args state (upcase_args argv)).code = ExitCodeSuccess ∧
      (parse_args state (upcase_args argv)).state = (parse_args state argv).state) ∧
    ((parse_args (parse_args state argv).state (parse_args state argv).argv).code
        = ExitCodeSuccess ∧
      (parse_args (parse_args state argv).state (parse_args state argv).argv).state
        = (parse_args state argv).state) ∧
    (∀ str : CStr, strtoupper (strtoupper str) = strtoupper str) := by
  refine ⟨?_, parse_args_again state argv hlen hcode, strtoupper_idem⟩
  rw [← parse_args_upcase_args state argv]
  exact ⟨hcode, rfl⟩

theorem idempotent_parse_witness :
    ((parse_args initial_state (upcase_args (argv_ab "wait" "either"))).code = ExitCodeSuccess ∧
      (parse_args initial_state (upcase_args (argv_ab "wait" "either"))).state
        = (parse_args initial_state (argv_ab "wait" "either")).state) ∧
    ((parse_args (parse_args initial_state (argv_ab "wait" "either")).state
          (parse_args initial_state (argv_ab "wait" "either")).argv).code
        = ExitCodeSuccess ∧
      (parse_args (parse_args initial_state (argv_ab "wait" "either")).state
          (parse_args initial_state (argv_ab "wait" "either")).argv).state
        = (parse_args initial_state (argv_ab "wait" "either")).state) ∧
    (∀ str : CStr, strtoupper (strtoupper str) = strtoupper str) :=
  idempotent_parse initial_state (argv_ab "wait" "either") (by decide) (by decide)

/-! ## C11, C12: exit codes -/

/-- The return code of `parse_args` is `ExitCodeSuccess` or `ExitCodeParseError`. -/
theorem parse_args_code_cases (state : AppState) (argv : List CStr) :
    (parse_args state argv).code = ExitCodeSuccess ∨
    (parse_args state argv).code = ExitCodeParseError := by
  unfold parse_args
  simp only []
  repeat' split
  all_goals first
    | exact Or.inr rfl
    | exact Or.inl (parse_args_finish_code _ _ _)

/-- One tick either leaves the state alone or sets `quitting` with exit code 0 or 1. -/
theorem handle_input_cases (state : AppState) (S : Snapshot) :
    handle_input state S = state ∨
    ((handle_input state S).quitting = 1 ∧
      ((handle_input state S).exit_code = ExitCodeSuccess ∨
       (handle_input state S).exit_code = ExitCodeError)) := by
  unfold handle_input
  split
  · exact Or.inr ⟨rfl, Or.inl rfl⟩
  · split
    · exact Or.inr ⟨rfl, Or.inr rfl⟩
    · exact Or.inl rfl

/-- A loop that was entered running and has terminated ends with exit code 0 or 1. -/
theorem poll_loop_exit_code (pad : List Snapshot) :
    ∀ state : AppState, state.quitting = 0 → (poll_loop state pad).1.quitting ≠ 0 →
      (poll_loop state pad).1.exit_code = ExitCodeSuccess ∨
      (poll_loop state pad).1.exit_code = ExitCodeError := by
  induction pad with
  | nil =>
    intro state hq hn
    exact absurd hq hn
  | cons S rest ih =>
    intro state hq hn
    have hstep : poll_loop state (S :: rest)
        = ((poll_loop (handle_input state S) rest).1,
            (poll_loop (handle_input state S) rest).2 + 1) := by
      simp [poll_loop, hq]
    rw [hstep] at hn ⊢
    rcases handle_input_cases state S with h | ⟨h1, h2⟩
    · rw [h] at hn ⊢
      exact ih state hq hn
    · have hq1 : (handle_input state S).quitting ≠ 0 := by rw [h1]; decide
      rw [poll_loop_quitting _ rest hq1]
      exact h2

/-- The exit status of `main`: 10 when `parse_args` fails, else 0 or 1. -/
theorem main_status_cases (argv : List CStr) (pad : List Snapshot) (code : Int)
    (h : (main argv pad).1 = some code) :
    ((parse_args initial_state argv).code ≠ ExitCodeSuccess ∧ code = ExitCodeParseError) ∨
    ((parse_args initial_state argv).code = ExitCodeSuccess ∧
      (code = ExitCodeSuccess ∨ code = ExitCodeError)) := by
  unfold main at h
  simp only [] at h
  by_cases ho : parse_overrun (parse_args initial_state argv) = true
  · rw [if_pos ho] at h
    exact Option.noConfusion h
  rw [if_neg ho] at h
  by_cases hc : (parse_args initial_state argv).code = ExitCodeSuccess
  · right
    refine ⟨hc, ?_⟩
    rw [if_neg (not_not.mpr hc)] at h
    simp only [] at h
    by_cases hq : (poll_loop (parse_args initial_state argv).state pad).1.quitting ≠ 0
    · rw [if_pos hq] at h
      have he := poll_loop_exit_code pad (parse_args initial_state argv).state
        (parse_args_frame initial_state argv).1 hq
      rw [Option.some.inj h] at he
      exact he
    · rw [if_neg hq] at h
      exact Option.noConfusion h
  · left
    rw [if_pos hc] at h
    exact ⟨hc, (Option.some.inj h).symm⟩

/-- C11: whenever `main` returns (no signal involved) on an argument vector and a sequence
of snapshots, the status is 0, 1 or 10; it is 10 exactly when `parse_args` fails (returns
a non-zero code), and it is none of the reserved codes 2..6, 11 and 124. -/
theorem exit_code_space (argv : List CStr) (pad : List Snapshot) (code : Int)
    (h : (main argv pad).1 = some code) :
    (code = 0 ∨ code = 1 ∨ code = 10) ∧
    (code = 10 ↔ (parse_args initial_state argv).code ≠ ExitCodeSuccess) ∧
    code ∉ [ExitCodeCancelButton, ExitCodeMenuButton, ExitCodeActionButton,
      ExitCodeInactionButton, ExitCodeStartButton, ExitCodeSerializeError, ExitCodeTimeout] := by
  rcases main_status_cases argv pad code h with ⟨hf, rfl⟩ | ⟨hs, rfl | rfl⟩
  · exact ⟨Or.inr (Or.inr rfl), ⟨fun _ => hf, fun _ => rfl⟩, by decide⟩
  · exact ⟨Or.inl rfl, ⟨fun h10 => absurd h10 (by decide), fun hn => absurd hs hn⟩, by decide⟩
  · exact ⟨Or.inr (Or.inl rfl), ⟨fun h10 => absurd h10 (by decide), fun hn => absurd hs hn⟩,
      by decide⟩

theorem exit_code_space_witness :
    (main (argv_ab "CAPTURE" "ALL") [snapshot_a_just_pressed]).1 = some 1 ∧
    ((1 : Int) = 0 ∨ (1 : Int) = 1 ∨ (1 : Int) = 10) ∧
    ((1 : Int) = 10 ↔
      (parse_args initial_state (argv_ab "CAPTURE" "ALL")).code ≠ ExitCodeSuccess) ∧
    (1 : Int) ∉ [ExitCodeCancelButton, ExitCodeMenuButton, ExitCodeActionButton,
      ExitCodeInactionButton, ExitCodeStartButton, ExitCodeSerializeError, ExitCodeTimeout] :=
  ⟨by decide,
   exit_code_space (argv_ab "CAPTURE" "ALL") [snapshot_a_just_pressed] 1 (by decide)⟩

/-- C12: `signal_handler` exits with 130 on `SIGINT` and with 143 on `SIGTERM`; the two
values differ from each other and from 0, 1 and 10, and so from every code that
`parse_args` returns, from every exit code that `handle_input` writes, and from every
status that `main` returns. -/
theorem cancellation_codes :
    signal_handler SIGINT = 130 ∧ signal_handler SIGTERM = 143 ∧
    signal_handler SIGINT = ExitCodeKeyboardInterrupt ∧
    signal_handler SIGTERM = ExitCodeSigterm ∧
    signal_handler SIGINT ≠ signal_handler SIGTERM ∧
    (∀ c ∈ [ExitCodeSuccess, ExitCodeError, ExitCodeParseError],
      signal_handler SIGINT ≠ c ∧ signal_handler SIGTERM ≠ c) ∧
    (∀ (state : AppState) (argv : List CStr),
      (parse_args state argv).code ≠ signal_handler SIGINT ∧
      (parse_args state argv).code ≠ signal_handler SIGTERM) ∧
    (∀ (state : AppState) (S : Snapshot), handle_input state S ≠ state →
      (handle_input state S).exit_code ≠ signal_handler SIGINT ∧
      (handle_input state S).exit_code ≠ signal_handler SIGTERM) ∧
    (∀ (argv : List CStr) (pad : List Snapshot) (code : Int), (main argv pad).1 = some code →
      code ≠ signal_handler SIGINT ∧ code ≠ signal_handler SIGTERM) := by
  have hi : signal_handler SIGINT = 130 := by decide
  have ht : signal_handler SIGTERM = 143 := by decide
  refine ⟨hi, ht, by decide, by decide, by decide, by decide, ?_, ?_, ?_⟩
  · intro state argv
    rw [hi, ht]
    rcases parse_args_code_cases state argv with h | h <;> rw [h] <;> decide
  · intro state S hne
    rw [hi, ht]
    rcases handle_input_cases state S with h | ⟨_, h | h⟩
    · exact absurd h hne
    · rw [h]; decide
    · rw [h]; decide
  · intro argv pad code h
    rw [hi, ht]
    rcases main_status_cases argv pad code h with ⟨_, rfl⟩ | ⟨_, rfl | rfl⟩ <;> decide

theorem cancellation_codes_witness :
    (main (argv_ab "WAIT" "ALL") [snapshot_ab_just_pressed]).1 = some 0 ∧
    (0 : Int) ≠ signal_handler SIGINT ∧ (0 : Int) ≠ signal_handler SIGTERM :=
  ⟨by decide,
   cancellation_codes.2.2.2.2.2.2.2.2 (argv_ab "WAIT" "ALL") [snapshot_ab_just_pressed] 0
     (by decide)⟩

/-! ## C13: names that `button_to_enum` does not know -/

/-- C13, at the failing input `BTN_PLUS`: `is_valid_button` accepts the name, so that
`prog CAPTURE IS_PRESSED ALL BTN_PLUS` is accepted, but `button_to_enum` has no branch for
it and resolves it to `BTN_NONE` through its final `else` (its sibling `BTN_MINUS` has a
branch). The evaluator then queries `BTN_NONE`: with `BTN_PLUS` pressed `main` reports no
match (status 1). Of the 30 names that `is_valid_button` accepts, only `BTN_PLUS` and
`BTN_NONE` itself resolve to `BTN_NONE`. -/
theorem button_plus_falls_back :
    is_valid_button (some "BTN_PLUS".toList) = true ∧
    button_to_enum "BTN_PLUS".toList = PadButton.BTN_NONE ∧
    button_to_enum "BTN_MINUS".toList = PadButton.BTN_MINUS ∧
    (parse_args initial_state
        ["prog".toList, "CAPTURE".toList, "IS_PRESSED".toList, "ALL".toList,
          "BTN_PLUS".toList]).code = ExitCodeSuccess ∧
    handle_input_queries
        (parse_args initial_state
          ["prog".toList, "CAPTURE".toList, "IS_PRESSED".toList, "ALL".toList,
            "BTN_PLUS".toList]).state snapshot_plus_pressed = [PadButton.BTN_NONE] ∧
    main ["prog".toList, "CAPTURE".toList, "IS_PRESSED".toList, "ALL".toList, "BTN_PLUS".toList]
        [snapshot_plus_pressed] = (some 1, 1) ∧
    (∀ n ∈ valid_buttons, button_to_enum n = PadButton.BTN_NONE →
      n = "BTN_NONE".toList ∨ n = "BTN_PLUS".toList) := by
  refine ⟨?_, ?_, ?_, ?_, ?_, ?_, ?_⟩ <;> decide

/-! ## C14: the capacity of the `buttons` array -/

set_option maxRecDepth 100000 in
/-- C14, at the failing input: `prog WAIT IS_PRESSED EITHER` followed by 31 times `BTN_A`
is accepted (code 0) and the loop of `parse_args` stores at the indices 0, 1, ..., 30: the
last store is at index 30, outside the 30 slots of `buttons`. With 30 names every store
is inside. -/
theorem capacity_overflow :
    (parse_args initial_state (argv_repeat_a 31)).code = ExitCodeSuccess ∧
    (parse_args initial_state (argv_repeat_a 31)).stores = List.range 31 ∧
    30 ∈ (parse_args initial_state (argv_repeat_a 31)).stores ∧
    ¬ (∀ i ∈ (parse_args initial_state (argv_repeat_a 31)).stores, i < 30) ∧
    (∀ i ∈ (parse_args initial_state (argv_repeat_a 30)).stores, i < 30) := by
  refine ⟨?_, ?_, ?_, ?_, ?_⟩ <;> decide

/-! ## C15: only the configured predicate is read -/

/-- C15: for every state and every two snapshots that agree, on all buttons, on the
predicate that the configured temporal state names (and may differ on the three others),
`handle_input` computes the same match result and the same state, hence the same quitting
flag and exit code. -/
theorem independent_predicates (state : AppState) (S1 S2 : Snapshot)
    (h : ∀ b : PadButton,
      state_query state.button.state S1 b = state_query state.button.state S2 b) :
    handle_input_result state S1 = handle_input_result state S2 ∧
    handle_input state S1 = handle_input state S2 ∧
    (handle_input state S1).quitting = (handle_input state S2).quitting ∧
    (handle_input state S1).exit_code = (handle_input state S2).exit_code := by
  have hq : state_query state.button.state S1 = state_query state.button.state S2 := funext h
  have hr : handle_input_result state S1 = handle_input_result state S2 := by
    rw [handle_input_result_eq, handle_input_result_eq, hq]
  have hi : handle_input state S1 = handle_input state S2 := by
    unfold handle_input
    rw [hr]
  exact ⟨hr, hi, by rw [hi], by rw [hi]⟩

theorem independent_predicates_witness :
    handle_input_result (state_ab MODE_WAIT BTN_COMBO_ALL) snapshot_ab_just_pressed
      = handle_input_result (state_ab MODE_WAIT BTN_COMBO_ALL) snapshot_ab_mixed ∧
    handle_input (state_ab MODE_WAIT BTN_COMBO_ALL) snapshot_ab_just_pressed
      = handle_input (state_ab MODE_WAIT BTN_COMBO_ALL) snapshot_ab_mixed ∧
    (handle_input (state_ab MODE_WAIT BTN_COMBO_ALL) snapshot_ab_just_pressed).quitting
      = (handle_input (state_ab MODE_WAIT BTN_COMBO_ALL) snapshot_ab_mixed).quitting ∧
    (handle_input (state_ab MODE_WAIT BTN_COMBO_ALL) snapshot_ab_just_pressed).exit_code
      = (handle_input (state_ab MODE_WAIT BTN_COMBO_ALL) snapshot_ab_mixed).exit_code :=
  independent_predicates (state_ab MODE_WAIT BTN_COMBO_ALL) snapshot_ab_just_pressed
    snapshot_ab_mixed (fun _ => rfl)

/-! ## C16: the queries made -/

theorem button_scan_queries_not_either (pad : PadButton → Bool) (c : ButtonCombination)
    (hc : c ≠ BTN_COMBO_EITHER) (B : List CStr) (k : Nat) :
    (button_scan pad c (B.map some ++ List.replicate k none)).2
      = (B.take (B.findIdx (fun b => !pad (button_to_enum b)) + 1)).map button_to_enum := by
  induction B with
  | nil => cases k <;> simp [button_scan, List.replicate_succ]
  | cons b rest ih =>
    simp only [List.map_cons, List.cons_append, button_scan, hc, if_false, List.findIdx_cons]
    cases h : pad (button_to_enum b) <;> simp [ih]

theorem button_scan_queries_either (pad : PadButton → Bool) (B : List CStr) (k : Nat) :
    (button_scan pad BTN_COMBO_EITHER (B.map some ++ List.replicate k none)).2
      = (B.take (B.findIdx (fun b => pad (button_to_enum b)) + 1)).map button_to_enum := by
  induction B with
  | nil => cases k <;> simp [button_scan, List.replicate_succ]
  | cons b rest ih =>
    simp only [List.map_cons, List.cons_append, button_scan, if_true, List.findIdx_cons]
    cases h : pad (button_to_enum b) <;> simp [ih]

theorem handle_input_queries_eq (state : AppState) (S : Snapshot) :
    handle_input_queries state S
      = (button_scan (state_query state.button.state S) state.button.combination
          (state.button.buttons.take 30)).2 := by
  unfold handle_input_queries
  cases state.button.state <;> simp [state_query]

/-- The queries of a tick are those of a prefix of the button list, whatever the
combination. -/
theorem handle_input_queries_take (state : AppState) (S : Snapshot) (B : List CStr)
    (hlen : B.length ≤ 30) (hB : state.button.buttons = button_slots B) :
    ∃ n, handle_input_queries state S = (B.take n).map button_to_enum := by
  rw [handle_input_queries_eq, hB, button_slots_take B hlen, button_slots]
  by_cases hc : state.button.combination = BTN_COMBO_EITHER
  · rw [hc]
    exact ⟨_, button_scan_queries_either _ B _⟩
  · exact ⟨_, button_scan_queries_not_either _ _ hc B _⟩

/-- C16, counterexample: with the button list `BTN_A`, `BTN_A` (which `parse_args` accepts
from the argument `BTN_A,BTN_A`), combination ALL and `BTN_A` just pressed, the evaluator
queries `BTN_A` twice: the list of its queries is `BTN_A`, `BTN_A`. -/
theorem short_circuit_counterexample :
    (parse_args initial_state
        ["prog".toList, "WAIT".toList, "JUST_PRESSED".toList, "ALL".toList,
          "BTN_A,BTN_A".toList]).code = ExitCodeSuccess ∧
    (parse_args initial_state
        ["prog".toList, "WAIT".toList, "JUST_PRESSED".toList, "ALL".toList,
          "BTN_A,BTN_A".toList]).state
      = with_buttons (state_ab MODE_WAIT BTN_COMBO_ALL) ["BTN_A".toList, "BTN_A".toList] ∧
    handle_input_queries
        (with_buttons (state_ab MODE_WAIT BTN_COMBO_ALL) ["BTN_A".toList, "BTN_A".toList])
        snapshot_a_just_pressed
      = [PadButton.BTN_A, PadButton.BTN_A] ∧
    ¬ (handle_input_queries
        (with_buttons (state_ab MODE_WAIT BTN_COMBO_ALL) ["BTN_A".toList, "BTN_A".toList])
        snapshot_a_just_pressed).Nodup := by
  refine ⟨?_, ?_, ?_, ?_⟩ <;> decide

/-- C16, amended: for every list `B` of at most 30 button names held in the `buttons`
array and every snapshot, the queries that the evaluator makes are, in order, the buttons
of the prefix of `B` that ends at the first deciding entry (under ALL the first entry that
fails the configured predicate, under EITHER the first that satisfies it), and of all of
`B` when no entry decides. So the queries follow the configured order, no entry after the
deciding one is queried and every entry is queried at most once (a button listed twice is
queried once per entry); when the entries of `B` resolve to pairwise distinct buttons, no
button is queried twice. -/
theorem short_circuit (state : AppState) (S : Snapshot) (B : List CStr)
    (hlen : B.length ≤ 30) (hB : state.button.buttons = button_slots B) :
    (state.button.combination = BTN_COMBO_ALL →
      handle_input_queries state S
        = (B.take (B.findIdx
              (fun b => !state_query state.button.state S (button_to_enum b)) + 1)).map
            button_to_enum) ∧
    (state.button.combination = BTN_COMBO_EITHER →
      handle_input_queries state S
        = (B.take (B.findIdx
              (fun b => state_query state.button.state S (button_to_enum b)) + 1)).map
            button_to_enum) ∧
    handle_input_queries state S <+: B.map button_to_enum ∧
    (handle_input_queries state S).length ≤ B.length ∧
    ((B.map button_to_enum).Nodup → (handle_input_queries state S).Nodup) := by
  obtain ⟨n, hn⟩ := handle_input_queries_take state S B hlen hB
  have hpre : handle_input_queries state S <+: B.map button_to_enum := by
    rw [hn]
    exact List.IsPrefix.map _ (List.take_prefix n B)
  refine ⟨?_, ?_, hpre, ?_, fun hnd => List.Nodup.sublist hpre.sublist hnd⟩
  · intro hc
    rw [handle_input_queries_eq, hB, button_slots_take B hlen, button_slots]
    exact button_scan_queries_not_either _ _ (by rw [hc]; decide) B _
  · intro hc
    rw [handle_input_queries_eq, hB, button_slots_take B hlen, button_slots, hc]
    exact button_scan_queries_either _ B _
  · have := hpre.length_le
    simpa using this

theorem short_circuit_witness :
    handle_input_queries
        (with_buttons (state_ab MODE_WAIT BTN_COMBO_ALL)
          ["BTN_A".toList, "BTN_X".toList, "BTN_B".toList, "BTN_Y".toList])
        snapshot_ab_just_pressed
      = [PadButton.BTN_A, PadButton.BTN_X] ∧
    handle_input_queries
        (with_buttons (state_ab MODE_WAIT BTN_COMBO_EITHER)
          ["BTN_X".toList, "BTN_B".toList, "BTN_A".toList])
        snapshot_ab_just_pressed
      = [PadButton.BTN_X, PadButton.BTN_B] ∧
    handle_input_queries
        (with_buttons (state_ab MODE_WAIT BTN_COMBO_ALL)
          ["BTN_A".toList, "BTN_X".toList, "BTN_B".toList, "BTN_Y".toList])
        snapshot_ab_just_pressed
      <+: (["BTN_A".toList, "BTN_X".toList, "BTN_B".toList, "BTN_Y".toList] : List CStr).map
            button_to_enum :=
  ⟨by decide, by decide,
   (short_circuit
      (with_buttons (state_ab MODE_WAIT BTN_COMBO_ALL)
        ["BTN_A".toList, "BTN_X".toList, "BTN_B".toList, "BTN_Y".toList])
      snapshot_ab_just_pressed
      ["BTN_A".toList, "BTN_X".toList, "BTN_B".toList, "BTN_Y".toList]
      (by decide) rfl).2.2.1⟩

/-! ## C17: the empty list -/

/-- C17: for every temporal state and every snapshot, when the `buttons` array holds no
name (its first slot is `NULL`), the evaluator returns `true` under ALL and `false` under
EITHER. -/
theorem empty_list (state : AppState) (S : Snapshot)
    (hB : state.button.buttons.headD none = none) :
    (state.button.combination = BTN_COMBO_ALL → handle_input_result state S = true) ∧
    (state.button.combination = BTN_COMBO_EITHER → handle_input_result state S = false) := by
  rw [handle_input_result_eq]
  cases hb : state.button.buttons with
  | nil =>
    constructor <;> intro hc <;> simp [button_scan, hc]
  | cons x rest =>
    rw [hb] at hB
    have hx : x = none := by simpa using hB
    subst hx
    constructor <;> intro hc <;> simp [button_scan, hc]

theorem empty_list_witness :
    ((with_buttons (state_ab MODE_WAIT BTN_COMBO_ALL) []).button.combination = BTN_COMBO_ALL →
      handle_input_result (with_buttons (state_ab MODE_WAIT BTN_COMBO_ALL) [])
        snapshot_ab_just_pressed = true) ∧
    handle_input_result (with_buttons (state_ab MODE_WAIT BTN_COMBO_ALL) [])
      snapshot_ab_just_pressed = true ∧
    handle_input_result (with_buttons (state_ab MODE_WAIT BTN_COMBO_EITHER) [])
      snapshot_ab_just_pressed = false :=
  ⟨(empty_list (with_buttons (state_ab MODE_WAIT BTN_COMBO_ALL) []) snapshot_ab_just_pressed
      (by decide)).1,
   by decide, by decide⟩

/-! ## C18: the frame of `handle_input` -/

/-- C18: for every state and every snapshot, `handle_input` leaves the `button` member
(mode, state, combination and button list) unchanged, so that it changes `quitting` and
`exit_code` at most; and in WAIT mode on a tick that does not match it leaves the whole
state unchanged. -/
theorem watchspec_immutable (state : AppState) (S : Snapshot) :
    (handle_input state S).button = state.button ∧
    handle_input state S
      = { state with
          quitting := (handle_input state S).quitting,
          exit_code := (handle_input state S).exit_code } ∧
    (state.button.mode = MODE_WAIT → handle_input_result state S = false →
      handle_input state S = state) := by
  have hb : (handle_input state S).button = state.button := by
    unfold handle_input
    split
    · rfl
    · split <;> rfl
  refine ⟨hb, ?_, fun hm hr => handle_input_wait_no_match state S hm hr⟩
  cases hh : handle_input state S with
  | mk q e b =>
    rw [hh] at hb
    simp only [] at hb
    subst hb
    rfl

theorem watchspec_immutable_witness :
    (handle_input (state_ab MODE_CAPTURE BTN_COMBO_ALL) snapshot_a_just_pressed).button
      = (state_ab MODE_CAPTURE BTN_COMBO_ALL).button ∧
    handle_input (state_ab MODE_WAIT BTN_COMBO_ALL) snapshot_a_just_pressed
      = state_ab MODE_WAIT BTN_COMBO_ALL :=
  ⟨(watchspec_immutable (state_ab MODE_CAPTURE BTN_COMBO_ALL) snapshot_a_just_pressed).1,
   (watchspec_immutable (state_ab MODE_WAIT BTN_COMBO_ALL) snapshot_a_just_pressed).2.2
      rfl (by decide)⟩

/-! ## C19: order and repetitions in the button list -/

theorem handle_input_quitting (state : AppState) (S : Snapshot) :
    (handle_input state S).quitting
      = if handle_input_result state S = true then 1
        else if state.button.mode = MODE_CAPTURE then 1 else state.quitting := by
  unfold handle_input
  split_ifs <;> rfl

theorem handle_input_exit_code (state : AppState) (S : Snapshot) :
    (handle_input state S).exit_code
      = if handle_input_result state S = true then ExitCodeSuccess
        else if state.button.mode = MODE_CAPTURE then ExitCodeError else state.exit_code := by
  unfold handle_input
  split_ifs <;> rfl

theorem all_congr_of_mem (f : CStr → Bool) (B1 B2 : List CStr)
    (h : ∀ b, b ∈ B1 ↔ b ∈ B2) : B1.all f = B2.all f := by
  rw [Bool.eq_iff_iff, List.all_eq_true, List.all_eq_true]
  exact ⟨fun h1 x hx => h1 x ((h x).mpr hx), fun h2 x hx => h2 x ((h x).mp hx)⟩

theorem any_congr_of_mem (f : CStr → Bool) (B1 B2 : List CStr)
    (h : ∀ b, b ∈ B1 ↔ b ∈ B2) : B1.any f = B2.any f := by
  rw [Bool.eq_iff_iff, List.any_eq_true, List.any_eq_true]
  exact ⟨fun ⟨x, hx, hf⟩ => ⟨x, (h x).mp hx, hf⟩, fun ⟨x, hx, hf⟩ => ⟨x, (h x).mpr hx, hf⟩⟩

/-- C19: for every state (any temporal state and mode) with combination ALL or EITHER,
every snapshot, and every two lists of at most 30 button names that contain the same
names, in any order and with any repetitions, the evaluator returns the same match result
on the two lists, and `handle_input` yields the same quitting flag and the same exit
code. -/
theorem order_insensitive (state : AppState) (S : Snapshot) (B1 B2 : List CStr)
    (h1 : B1.length ≤ 30) (h2 : B2.length ≤ 30)
    (hc : state.button.combination = BTN_COMBO_ALL ∨
      state.button.combination = BTN_COMBO_EITHER)
    (hset : ∀ b, b ∈ B1 ↔ b ∈ B2) :
    handle_input_result (with_buttons state B1) S
      = handle_input_result (with_buttons state B2) S ∧
    (handle_input (with_buttons state B1) S).quitting
      = (handle_input (with_buttons state B2) S).quitting ∧
    (handle_input (with_buttons state B1) S).exit_code
      = (handle_input (with_buttons state B2) S).exit_code := by
  have hr : handle_input_result (with_buttons state B1) S
      = handle_input_result (with_buttons state B2) S := by
    rcases hc with hc | hc
    · have hne : (with_buttons state B1).button.combination ≠ BTN_COMBO_EITHER := by
        show state.button.combination ≠ BTN_COMBO_EITHER
        rw [hc]; decide
      rw [handle_input_result_not_either (with_buttons state B1) S B1 h1 rfl hne,
        handle_input_result_not_either (with_buttons state B2) S B2 h2 rfl hne]
      exact all_congr_of_mem _ B1 B2 hset
    · rw [handle_input_result_either (with_buttons state B1) S B1 h1 rfl hc,
        handle_input_result_either (with_buttons state B2) S B2 h2 rfl hc]
      exact any_congr_of_mem _ B1 B2 hset
  refine ⟨hr, ?_, ?_⟩
  · rw [handle_input_quitting, handle_input_quitting, hr]
    rfl
  · rw [handle_input_exit_code, handle_input_exit_code, hr]
    rfl

theorem order_insensitive_witness :
    handle_input_result
        (with_buttons (state_ab MODE_CAPTURE BTN_COMBO_ALL) ["BTN_A".toList, "BTN_B".toList])
        snapshot_a_just_pressed
      = handle_input_result
        (with_buttons (state_ab MODE_CAPTURE BTN_COMBO_ALL)
          ["BTN_B".toList, "BTN_A".toList, "BTN_B".toList])
        snapshot_a_just_pressed ∧
    (handle_input
        (with_buttons (state_ab MODE_CAPTURE BTN_COMBO_ALL) ["BTN_A".toList, "BTN_B".toList])
        snapshot_a_just_pressed).quitting
      = (handle_input
        (with_buttons (state_ab MODE_CAPTURE BTN_COMBO_ALL)
          ["BTN_B".toList, "BTN_A".toList, "BTN_B".toList])
        snapshot_a_just_pressed).quitting ∧
    (handle_input
        (with_buttons (state_ab MODE_CAPTURE BTN_COMBO_ALL) ["BTN_A".toList, "BTN_B".toList])
        snapshot_a_just_pressed).exit_code
      = (handle_input
        (with_buttons (state_ab MODE_CAPTURE BTN_COMBO_ALL)
          ["BTN_B".toList, "BTN_A".toList, "BTN_B".toList])
        snapshot_a_just_pressed).exit_code :=
  order_insensitive (state_ab MODE_CAPTURE BTN_COMBO_ALL) snapshot_a_just_pressed
    ["BTN_A".toList, "BTN_B".toList] ["BTN_B".toList, "BTN_A".toList, "BTN_B".toList]
    (by decide) (by decide) (Or.inl rfl)
    (fun b => by
      simp only [List.mem_cons, List.mem_singleton, List.not_mem_nil, or_false]
      constructor
      · rintro (h | h)
        · exact Or.inr (Or.inl h)
        · exact Or.inl h
      · rintro (h | h | h)
        · exact Or.inr h
        · exact Or.inl h
        · exact Or.inr h)

/-! ## C20: empty fields in the buttons argument -/

theorem strtok_scan_eq_fields (s : CStr) :
    ∀ cur : CStr,
      strtok_scan cur s
        = ((s.splitOn ',').modifyHead (fun x => cur ++ x)).filter (fun f => decide (f ≠ [])) := by
  induction s with
  | nil =>
    intro cur
    by_cases hcur : cur = []
    · simp [strtok_scan, hcur, List.splitOn, List.splitOnP_nil]
    · simp [strtok_scan, hcur, List.splitOn, List.splitOnP_nil]
  | cons c cs ih =>
    intro cur
    have h0 := ih []
    have hid : (List.splitOn ',' cs).modifyHead (fun x => [] ++ x) = List.splitOn ',' cs := by
      cases List.splitOn ',' cs <;> simp [List.modifyHead]
    rw [hid] at h0
    by_cases hc : c = ','
    · subst hc
      have hsp : List.splitOn ',' (',' :: cs) = [] :: List.splitOn ',' cs := by
        simp [List.splitOn, List.splitOnP_cons]
      rw [hsp]
      by_cases hcur : cur = []
      · simp [strtok_scan, hcur, h0]
      · simp [strtok_scan, hcur, h0]
    · have hsp : List.splitOn ',' (c :: cs)
          = (List.splitOn ',' cs).modifyHead (List.cons c) := by
        simp [List.splitOn, List.splitOnP_cons, hc]
      rw [hsp, List.modifyHead_modifyHead]
      simp only [strtok_scan, if_neg hc]
      rw [ih (cur ++ [c])]
      congr 2
      funext x
      simp

/-- The tokens that `strtok` yields are the non-empty comma-separated fields, in order. -/
theorem strtok_tokens_eq_fields (s : CStr) : strtok_tokens s = non_empty_fields s := by
  unfold strtok_tokens non_empty_fields
  rw [strtok_scan_eq_fields s []]
  congr 1
  cases List.splitOn ',' s <;> simp [List.modifyHead]

/-- The buttons argument is read through its tokens only: two argument vectors with the
same upper-cased mode, state and combination and with buttons arguments of the same
tokens give the same return code, state and store indices. -/
theorem parse_args_same_tokens (state : AppState) (argv argv2 : List CStr) (a4 b4 : CStr)
    (h1 : (upcase_args argv)[1]? = (upcase_args argv2)[1]?)
    (h2 : (upcase_args argv)[2]? = (upcase_args argv2)[2]?)
    (h3 : (upcase_args argv)[3]? = (upcase_args argv2)[3]?)
    (h4 : (upcase_args argv)[4]? = some a4) (h4b : (upcase_args argv2)[4]? = some b4)
    (ht : strtok_tokens a4 = strtok_tokens b4) :
    (parse_args state argv).code = (parse_args state argv2).code ∧
    (parse_args state argv).state = (parse_args state argv2).state ∧
    (parse_args state argv).stores = (parse_args state argv2).stores := by
  unfold parse_args
  simp only [h1, h2, h3, h4, h4b, ht]
  repeat' split
  all_goals first
    | exact ⟨rfl, rfl, rfl⟩
    | (unfold parse_args_finish; split <;> exact ⟨rfl, rfl, rfl⟩)

/-- With combination ALL or EITHER and a buttons argument of at most 30 valid tokens,
`parse_args` succeeds and the `buttons` array of `main` ends up holding the tokens, in
order, followed by `NULL` slots. -/
theorem parse_args_token_list (argv : List CStr) (a4 : CStr)
    (hm : (argv[1]?).map strtoupper ∈ [some "CAPTURE".toList, some "WAIT".toList])
    (hs : (argv[2]?).map strtoupper ∈ [some "JUST_PRESSED".toList, some "IS_PRESSED".toList,
            some "JUST_RELEASED".toList, some "JUST_REPEATED".toList])
    (hc : (argv[3]?).map strtoupper ∈ [some "ALL".toList, some "EITHER".toList])
    (h4 : argv[4]? = some a4)
    (hv : ∀ t ∈ strtok_tokens (strtoupper a4), t ∈ valid_buttons)
    (hn : (strtok_tokens (strtoupper a4)).length ≤ 30) :
    (parse_args initial_state argv).code = ExitCodeSuccess ∧
    (parse_args initial_state argv).state.button.buttons
      = button_slots (strtok_tokens (strtoupper a4)) := by
  obtain ⟨a1, m, g1, hm1⟩ := parse_mode_of_mem _ hm
  obtain ⟨a2, s, g2, hs1⟩ := parse_state_of_mem _ hs
  have hc1 : ∃ a3 c, (argv[3]?).map strtoupper = some a3 ∧ parse_combination a3 = some c ∧
      c ≠ BTN_COMBO_ANY := by
    simp only [List.mem_cons, List.mem_singleton, List.not_mem_nil, or_false] at hc
    rcases hc with h | h
    · exact ⟨_, BTN_COMBO_ALL, h, by decide, by decide⟩
    · exact ⟨_, BTN_COMBO_EITHER, h, by decide, by decide⟩
  obtain ⟨a3, c, g3, hc2, hne⟩ := hc1
  rw [← upcase_args_get argv 0] at g1
  rw [← upcase_args_get argv 1] at g2
  rw [← upcase_args_get argv 2] at g3
  rw [parse_args_of_stages initial_state argv a1 a2 a3 m s c g1 hm1 g2 hs1 g3 hc2]
  rw [upcase_args_get argv 3, h4]
  simp only [Option.map_some']
  have hpb := parse_buttons_of_valid (strtok_tokens (strtoupper a4)) 0
    initial_state.button.buttons hv
  have hfold := store_fold (strtok_tokens (strtoupper a4)) [] (List.replicate 30 none)
    (by simpa using hn) (by simpa using hn)
  have hinit : initial_state.button.buttons = [] ++ List.replicate 30 none := rfl
  rw [hinit] at hpb
  rw [show ([] : List (Option CStr)).length = 0 from rfl] at hfold
  rw [hfold] at hpb
  rw [hinit, hpb]
  simp only [if_true]
  rw [parse_args_finish_not_any _ _ _ hne]
  refine ⟨rfl, ?_⟩
  show [] ++ List.map some (strtok_tokens (strtoupper a4)) ++
      List.drop (strtok_tokens (strtoupper a4)).length (List.replicate 30 none)
    = button_slots (strtok_tokens (strtoupper a4))
  unfold button_slots
  rw [List.drop_replicate, List.nil_append]

/-- C20, counterexample: `prog WAIT IS_PRESSED ANY` followed by the empty buttons argument
(no non-empty field) is accepted with code 0, but the button list is not empty: it is the
whole table `valid_buttons`, 30 entries. -/
theorem empty_fields_counterexample :
    non_empty_fields "".toList = [] ∧
    (parse_args initial_state
        ["prog".toList, "WAIT".toList, "IS_PRESSED".toList, "ANY".toList, "".toList]).code
      = ExitCodeSuccess ∧
    (parse_args initial_state
        ["prog".toList, "WAIT".toList, "IS_PRESSED".toList, "ANY".toList,
          "".toList]).state.button.buttons
      = valid_buttons.map some ∧
    (parse_args initial_state
        ["prog".toList, "WAIT".toList, "IS_PRESSED".toList, "ANY".toList,
          "".toList]).state.button.buttons
      ≠ button_slots [] ∧
    ((parse_args initial_state
        ["prog".toList, "WAIT".toList, "IS_PRESSED".toList, "ANY".toList,
          "".toList]).state.button.buttons.filter Option.isSome).length = 30 := by
  refine ⟨?_, ?_, ?_, ?_, ?_⟩ <;> decide

/-- C20, amended: for every argument vector with a valid mode and state and a buttons
argument, the tokens that `parse_args` reads from the (upper-cased) buttons argument are
its non-empty comma-separated fields, in order: leading, trailing and repeated commas are
skipped. With combination ALL or EITHER, at most 30 such fields and all of them valid,
`parse_args` returns 0 and the button list of `main` is that sequence of fields; with no
non-empty field (`""` or `","`) the return code is 0 and the button list is empty under
ALL and EITHER, and is the table `valid_buttons` under ANY. Two argument vectors that
differ only in the buttons argument, with the same non-empty fields, give the same return
code, state and store indices (whatever the mode, state and combination). -/
theorem empty_fields (argv : List CStr) (a4 : CStr)
    (hm : (argv[1]?).map strtoupper ∈ [some "CAPTURE".toList, some "WAIT".toList])
    (hs : (argv[2]?).map strtoupper ∈ [some "JUST_PRESSED".toList, some "IS_PRESSED".toList,
            some "JUST_RELEASED".toList, some "JUST_REPEATED".toList])
    (h4 : argv[4]? = some a4) :
    strtok_tokens (strtoupper a4) = non_empty_fields (strtoupper a4) ∧
    ((argv[3]?).map strtoupper ∈ [some "ALL".toList, some "EITHER".toList] →
      (∀ t ∈ non_empty_fields (strtoupper a4), t ∈ valid_buttons) →
      (non_empty_fields (strtoupper a4)).length ≤ 30 →
      (parse_args initial_state argv).code = ExitCodeSuccess ∧
      (parse_args initial_state argv).state.button.buttons
        = button_slots (non_empty_fields (strtoupper a4))) ∧
    (non_empty_fields (strtoupper a4) = [] →
      ((argv[3]?).map strtoupper ∈ [some "ALL".toList, some "EITHER".toList] →
        (parse_args initial_state argv).code = ExitCodeSuccess ∧
        (parse_args initial_state argv).state.button.buttons = List.replicate 30 none) ∧
      ((argv[3]?).map strtoupper = some "ANY".toList →
        (parse_args initial_state argv).code = ExitCodeSuccess ∧
        (parse_args initial_state argv).state.button.buttons = valid_buttons.map some)) ∧
    (∀ (state : AppState) (argv2 : List CStr) (b4 : CStr),
      (argv2[1]?).map strtoupper = (argv[1]?).map strtoupper →
      (argv2[2]?).map strtoupper = (argv[2]?).map strtoupper →
      (argv2[3]?).map strtoupper = (argv[3]?).map strtoupper →
      argv2[4]? = some b4 →
      non_empty_fields (strtoupper b4) = non_empty_fields (strtoupper a4) →
      (parse_args state argv2).code = (parse_args state argv).code ∧
      (parse_args state argv2).state = (parse_args state argv).state ∧
      (parse_args state argv2).stores = (parse_args state argv).stores) := by
  have htok := strtok_tokens_eq_fields (strtoupper a4)
  refine ⟨htok, ?_, ?_, ?_⟩
  · intro hc hv hn
    rw [← htok] at hv hn ⊢
    exact parse_args_token_list argv a4 hm hs hc h4 hv hn
  · intro hnil
    constructor
    · intro hc
      have h := parse_args_token_list argv a4 hm hs hc h4
        (by rw [htok, hnil]; intro t ht; exact absurd ht (List.not_mem_nil t))
        (by rw [htok, hnil]; exact Nat.zero_le _)
      rw [htok, hnil] at h
      exact h
    · intro hany
      obtain ⟨a1, m, g1, hm1⟩ := parse_mode_of_mem _ hm
      obtain ⟨a2, s, g2, hs1⟩ := parse_state_of_mem _ hs
      rw [← upcase_args_get argv 0] at g1
      rw [← upcase_args_get argv 1] at g2
      have g3 : (upcase_args argv)[3]? = some "ANY".toList := by
        rw [upcase_args_get argv 2]; exact hany
      have hcode : (parse_args initial_state argv).code = ExitCodeSuccess := by
        apply parse_args_code_of_valid initial_state argv a1 a2 "ANY".toList m s BTN_COMBO_ANY
          g1 hm1 g2 hs1 g3 (by decide)
        intro x hx t ht
        rw [upcase_args_get argv 3, h4] at hx
        have hxe : strtoupper a4 = x := Option.some.inj hx
        rw [← hxe, htok, hnil] at ht
        exact absurd ht (List.not_mem_nil t)
      obtain ⟨_, _, _, _, _, _, _, _, hst⟩ :=
        parse_args_any_state initial_state argv (by decide) hcode hany
      exact ⟨hcode, by rw [hst]⟩
  · intro state argv2 b4 e1 e2 e3 e4 hf
    apply parse_args_same_tokens state argv2 argv (strtoupper b4) (strtoupper a4)
    · rw [upcase_args_get argv2 0, upcase_args_get argv 0]; exact e1
    · rw [upcase_args_get argv2 1, upcase_args_get argv 1]; exact e2
    · rw [upcase_args_get argv2 2, upcase_args_get argv 2]; exact e3
    · rw [upcase_args_get argv2 3, e4]; rfl
    · rw [upcase_args_get argv 3, h4]; rfl
    · rw [strtok_tokens_eq_fields, strtok_tokens_eq_fields, hf]

theorem empty_fields_witness :
    ((parse_args initial_state
        ["prog".toList, "wait".toList, "is_pressed".toList, "either".toList,
          ",btn_a,,btn_b,".toList]).code = ExitCodeSuccess ∧
      (parse_args initial_state
        ["prog".toList, "wait".toList, "is_pressed".toList, "either".toList,
          ",btn_a,,btn_b,".toList]).state.button.buttons
        = button_slots (non_empty_fields (strtoupper ",btn_a,,btn_b,".toList))) ∧
    non_empty_fields (strtoupper ",btn_a,,btn_b,".toList) = ["BTN_A".toList, "BTN_B".toList] ∧
    (parse_args initial_state
        ["prog".toList, "WAIT".toList, "IS_PRESSED".toList, "EITHER".toList,
          "BTN_A,BTN_B".toList]).state
      = (parse_args initial_state
        ["prog".toList, "wait".toList, "is_pressed".toList, "either".toList,
          ",btn_a,,btn_b,".toList]).state ∧
    (parse_args initial_state
        ["prog".toList, "WAIT".toList, "IS_PRESSED".toList, "ALL".toList, ",".toList]).code
      = ExitCodeSuccess :=
  ⟨(empty_fields
      ["prog".toList, "wait".toList, "is_pressed".toList, "either".toList,
        ",btn_a,,btn_b,".toList]
      ",btn_a,,btn_b,".toList (by decide) (by decide) rfl).2.1
      (by decide) (by decide) (by decide),
   by decide,
   ((empty_fields
      ["prog".toList, "wait".toList, "is_pressed".toList, "either".toList,
        ",btn_a,,btn_b,".toList]
      ",btn_a,,btn_b,".toList (by decide) (by decide) rfl).2.2.2
      initial_state
      ["prog".toList, "WAIT".toList, "IS_PRESSED".toList, "EITHER".toList, "BTN_A,BTN_B".toList]
      "BTN_A,BTN_B".toList (by decide) (by decide) (by decide) rfl (by decide)).2.1,
   by decide⟩

end Btntest
